import Mathlib

/-!
Verification of the event subsystem of the sdl3-deno binding layer.

The development shallowly embeds the discriminated event-union accessor
(`EventUnion.toObject`, the variant push helpers), the single-record
`Event` accessor (`poll`, `wait`, `waitTimeout`, `pushQuit`, `iter`) and
the multi-record `EventArray` batch accessor (`push`, `dt`, `get`,
`fold`).  Machine integers are modelled as `Nat`; the 128-byte event
records are modelled at the granularity the properties speak about: the
shared common header (`type`, `reserved`, `timestamp`).  Fallible
operations return `Except Thrown _` where the error value carries the
object state at the moment of the throw, mirroring that a thrown
exception leaves the mutable object exactly as it was when the throw
executed.
-/

set_option maxHeartbeats 1600000
set_option maxRecDepth 16000
set_option linter.unusedVariables false

/-- Modelled from the spec: the numeric event-type tags live in a shared
numbering space defined by the upstream SDL3 header (`SDL_EventType`,
re-exported by the generated enum module which is not part of the
sources available here).  The values mirror the upstream enumeration;
what the proofs rely on is only that the enumerated tags are pairwise
distinct unsigned 32-bit values and that exactly the tag `USER` among
them lies in the reserved user range `USER..LAST`. -/
def EventType.QUIT : Nat := 0x100

def EventType.DISPLAY_ORIENTATION : Nat := 0x151
def EventType.DISPLAY_ADDED : Nat := 0x152
def EventType.DISPLAY_REMOVED : Nat := 0x153
def EventType.DISPLAY_MOVED : Nat := 0x154
def EventType.DISPLAY_DESKTOP_MODE_CHANGED : Nat := 0x155
def EventType.DISPLAY_CURRENT_MODE_CHANGED : Nat := 0x156
def EventType.DISPLAY_CONTENT_SCALE_CHANGED : Nat := 0x157
def EventType.DISPLAY_USABLE_BOUNDS_CHANGED : Nat := 0x158
def EventType.WINDOW_SHOWN : Nat := 0x202
def EventType.WINDOW_HIDDEN : Nat := 0x203
def EventType.WINDOW_EXPOSED : Nat := 0x204
def EventType.WINDOW_MOVED : Nat := 0x205
def EventType.WINDOW_RESIZED : Nat := 0x206
def EventType.WINDOW_PIXEL_SIZE_CHANGED : Nat := 0x207
def EventType.WINDOW_METAL_VIEW_RESIZED : Nat := 0x208
def EventType.WINDOW_MINIMIZED : Nat := 0x209
def EventType.WINDOW_MAXIMIZED : Nat := 0x20A
def EventType.WINDOW_RESTORED : Nat := 0x20B
def EventType.WINDOW_MOUSE_ENTER : Nat := 0x20C
def EventType.WINDOW_MOUSE_LEAVE : Nat := 0x20D
def EventType.WINDOW_FOCUS_GAINED : Nat := 0x20E
def EventType.WINDOW_FOCUS_LOST : Nat := 0x20F
def EventType.WINDOW_CLOSE_REQUESTED : Nat := 0x210
def EventType.WINDOW_HIT_TEST : Nat := 0x211
def EventType.WINDOW_ICCPROF_CHANGED : Nat := 0x212
def EventType.WINDOW_DISPLAY_CHANGED : Nat := 0x213
def EventType.WINDOW_DISPLAY_SCALE_CHANGED : Nat := 0x214
def EventType.WINDOW_SAFE_AREA_CHANGED : Nat := 0x215
def EventType.WINDOW_OCCLUDED : Nat := 0x216
def EventType.WINDOW_ENTER_FULLSCREEN : Nat := 0x217
def EventType.WINDOW_LEAVE_FULLSCREEN : Nat := 0x218
def EventType.WINDOW_DESTROYED : Nat := 0x219
def EventType.WINDOW_HDR_STATE_CHANGED : Nat := 0x21A
def EventType.KEY_DOWN : Nat := 0x300
def EventType.KEY_UP : Nat := 0x301
def EventType.TEXT_EDITING : Nat := 0x302
def EventType.TEXT_INPUT : Nat := 0x303
def EventType.KEYBOARD_ADDED : Nat := 0x305
def EventType.KEYBOARD_REMOVED : Nat := 0x306
def EventType.TEXT_EDITING_CANDIDATES : Nat := 0x307
def EventType.MOUSE_MOTION : Nat := 0x400
def EventType.MOUSE_BUTTON_DOWN : Nat := 0x401
def EventType.MOUSE_BUTTON_UP : Nat := 0x402
def EventType.MOUSE_WHEEL : Nat := 0x403
def EventType.MOUSE_ADDED : Nat := 0x404
def EventType.MOUSE_REMOVED : Nat := 0x405
def EventType.JOYSTICK_AXIS_MOTION : Nat := 0x600
def EventType.JOYSTICK_BALL_MOTION : Nat := 0x601
def EventType.JOYSTICK_HAT_MOTION : Nat := 0x602
def EventType.JOYSTICK_BUTTON_DOWN : Nat := 0x603
def EventType.JOYSTICK_BUTTON_UP : Nat := 0x604
def EventType.JOYSTICK_ADDED : Nat := 0x605
def EventType.JOYSTICK_REMOVED : Nat := 0x606
def EventType.JOYSTICK_BATTERY_UPDATED : Nat := 0x607
def EventType.JOYSTICK_UPDATE_COMPLETE : Nat := 0x608
def EventType.GAMEPAD_AXIS_MOTION : Nat := 0x650
def EventType.GAMEPAD_BUTTON_DOWN : Nat := 0x651
def EventType.GAMEPAD_BUTTON_UP : Nat := 0x652
def EventType.GAMEPAD_ADDED : Nat := 0x653
def EventType.GAMEPAD_REMOVED : Nat := 0x654
def EventType.GAMEPAD_REMAPPED : Nat := 0x655
def EventType.GAMEPAD_TOUCHPAD_DOWN : Nat := 0x656
def EventType.GAMEPAD_TOUCHPAD_MOTION : Nat := 0x657
def EventType.GAMEPAD_TOUCHPAD_UP : Nat := 0x658
def EventType.GAMEPAD_SENSOR_UPDATE : Nat := 0x659
def EventType.GAMEPAD_UPDATE_COMPLETE : Nat := 0x65A
def EventType.GAMEPAD_STEAM_HANDLE_UPDATED : Nat := 0x65B
def EventType.FINGER_DOWN : Nat := 0x700
def EventType.FINGER_UP : Nat := 0x701
def EventType.FINGER_MOTION : Nat := 0x702
def EventType.FINGER_CANCELED : Nat := 0x703
def EventType.PINCH_BEGIN : Nat := 0x704
def EventType.PINCH_UPDATE : Nat := 0x705
def EventType.PINCH_END : Nat := 0x706
def EventType.CLIPBOARD_UPDATE : Nat := 0x900
def EventType.DROP_FILE : Nat := 0x1000
def EventType.DROP_TEXT : Nat := 0x1001
def EventType.DROP_BEGIN : Nat := 0x1002
def EventType.DROP_COMPLETE : Nat := 0x1003
def EventType.DROP_POSITION : Nat := 0x1004
def EventType.AUDIO_DEVICE_ADDED : Nat := 0x1100
def EventType.AUDIO_DEVICE_REMOVED : Nat := 0x1101
def EventType.AUDIO_DEVICE_FORMAT_CHANGED : Nat := 0x1102
def EventType.SENSOR_UPDATE : Nat := 0x1200
def EventType.PEN_PROXIMITY_IN : Nat := 0x1300
def EventType.PEN_PROXIMITY_OUT : Nat := 0x1301
def EventType.PEN_DOWN : Nat := 0x1302
def EventType.PEN_UP : Nat := 0x1303
def EventType.PEN_BUTTON_DOWN : Nat := 0x1304
def EventType.PEN_BUTTON_UP : Nat := 0x1305
def EventType.PEN_MOTION : Nat := 0x1306
def EventType.PEN_AXIS : Nat := 0x1307
def EventType.CAMERA_DEVICE_ADDED : Nat := 0x1400
def EventType.CAMERA_DEVICE_REMOVED : Nat := 0x1401
def EventType.CAMERA_DEVICE_APPROVED : Nat := 0x1402
def EventType.CAMERA_DEVICE_DENIED : Nat := 0x1403
def EventType.RENDER_TARGETS_RESET : Nat := 0x2000
def EventType.RENDER_DEVICE_RESET : Nat := 0x2001
def EventType.RENDER_DEVICE_LOST : Nat := 0x2002
def EventType.USER : Nat := 0x8000
def EventType.LAST : Nat := 0xFFFF


/-- The typed projections an `EventUnion` exposes over the shared backing
bytes.  Each constructor stands for one of the read accessors of
`EventUnion` in `src/gen/events.ts`; `toObject` selects among them. -/
inductive Projection : Type where
  | common
  | display
  | window
  | keyboardDevice
  | keyboard
  | textEditing
  | textEditingCandidates
  | textInput
  | mouseDevice
  | mouseMotion
  | mouseButton
  | mouseWheel
  | joyAxis
  | joyBall
  | joyHat
  | joyButton
  | joyDevice
  | joyBattery
  | gamepadAxis
  | gamepadButton
  | gamepadDevice
  | gamepadTouchpad
  | gamepadSensor
  | audioDevice
  | cameraDevice
  | render
  | touchFinger
  | pinchFinger
  | penProximity
  | penMotion
  | penTouch
  | penButton
  | penAxis
  | drop
  | clipboard
  | sensor
  | quit
  | user
deriving DecidableEq, Repr

/-- The association the `toObject` dispatch establishes between each
individually enumerated case label of the switch in
`src/gen/events.ts` (lines 361-466) and the projection it returns,
listed in source order. -/
def dispatchTable1 : List (Nat × Projection) := [
  (EventType.QUIT, .quit),
  (EventType.DISPLAY_ORIENTATION, .display),
  (EventType.DISPLAY_ADDED, .display),
  (EventType.DISPLAY_REMOVED, .display),
  (EventType.DISPLAY_MOVED, .display),
  (EventType.DISPLAY_DESKTOP_MODE_CHANGED, .display),
  (EventType.DISPLAY_CURRENT_MODE_CHANGED, .display),
  (EventType.DISPLAY_CONTENT_SCALE_CHANGED, .display),
  (EventType.DISPLAY_USABLE_BOUNDS_CHANGED, .display),
  (EventType.WINDOW_SHOWN, .window),
  (EventType.WINDOW_HIDDEN, .window),
  (EventType.WINDOW_EXPOSED, .window),
  (EventType.WINDOW_MOVED, .window),
  (EventType.WINDOW_RESIZED, .window),
  (EventType.WINDOW_PIXEL_SIZE_CHANGED, .window),
  (EventType.WINDOW_METAL_VIEW_RESIZED, .window),
  (EventType.WINDOW_MINIMIZED, .window),
  (EventType.WINDOW_MAXIMIZED, .window),
  (EventType.WINDOW_RESTORED, .window),
  (EventType.WINDOW_MOUSE_ENTER, .window),
  (EventType.WINDOW_MOUSE_LEAVE, .window),
  (EventType.WINDOW_FOCUS_GAINED, .window),
  (EventType.WINDOW_FOCUS_LOST, .window),
  (EventType.WINDOW_CLOSE_REQUESTED, .window),
  (EventType.WINDOW_HIT_TEST, .window),
  (EventType.WINDOW_ICCPROF_CHANGED, .window)]

def dispatchTable2 : List (Nat × Projection) := [
  (EventType.WINDOW_DISPLAY_CHANGED, .window),
  (EventType.WINDOW_DISPLAY_SCALE_CHANGED, .window),
  (EventType.WINDOW_SAFE_AREA_CHANGED, .window),
  (EventType.WINDOW_OCCLUDED, .window),
  (EventType.WINDOW_ENTER_FULLSCREEN, .window),
  (EventType.WINDOW_LEAVE_FULLSCREEN, .window),
  (EventType.WINDOW_DESTROYED, .window),
  (EventType.WINDOW_HDR_STATE_CHANGED, .window),
  (EventType.KEY_DOWN, .keyboard),
  (EventType.KEY_UP, .keyboard),
  (EventType.TEXT_EDITING, .textEditing),
  (EventType.TEXT_INPUT, .textInput),
  (EventType.KEYBOARD_ADDED, .keyboardDevice),
  (EventType.KEYBOARD_REMOVED, .keyboardDevice),
  (EventType.TEXT_EDITING_CANDIDATES, .textEditingCandidates),
  (EventType.MOUSE_MOTION, .mouseMotion),
  (EventType.MOUSE_BUTTON_DOWN, .mouseButton),
  (EventType.MOUSE_BUTTON_UP, .mouseButton),
  (EventType.MOUSE_WHEEL, .mouseWheel),
  (EventType.MOUSE_ADDED, .mouseDevice),
  (EventType.MOUSE_REMOVED, .mouseDevice),
  (EventType.JOYSTICK_AXIS_MOTION, .joyAxis),
  (EventType.JOYSTICK_BALL_MOTION, .joyBall),
  (EventType.JOYSTICK_HAT_MOTION, .joyHat),
  (EventType.JOYSTICK_BUTTON_DOWN, .joyButton)]

def dispatchTable3 : List (Nat × Projection) := [
  (EventType.JOYSTICK_BUTTON_UP, .joyButton),
  (EventType.JOYSTICK_ADDED, .joyDevice),
  (EventType.JOYSTICK_REMOVED, .joyDevice),
  (EventType.JOYSTICK_BATTERY_UPDATED, .joyBattery),
  (EventType.JOYSTICK_UPDATE_COMPLETE, .joyDevice),
  (EventType.GAMEPAD_AXIS_MOTION, .gamepadAxis),
  (EventType.GAMEPAD_BUTTON_DOWN, .gamepadButton),
  (EventType.GAMEPAD_BUTTON_UP, .gamepadButton),
  (EventType.GAMEPAD_ADDED, .gamepadDevice),
  (EventType.GAMEPAD_REMOVED, .gamepadDevice),
  (EventType.GAMEPAD_REMAPPED, .gamepadDevice),
  (EventType.GAMEPAD_TOUCHPAD_DOWN, .gamepadTouchpad),
  (EventType.GAMEPAD_TOUCHPAD_MOTION, .gamepadTouchpad),
  (EventType.GAMEPAD_TOUCHPAD_UP, .gamepadTouchpad),
  (EventType.GAMEPAD_SENSOR_UPDATE, .gamepadSensor),
  (EventType.GAMEPAD_UPDATE_COMPLETE, .gamepadDevice),
  (EventType.GAMEPAD_STEAM_HANDLE_UPDATED, .gamepadDevice),
  (EventType.FINGER_DOWN, .touchFinger),
  (EventType.FINGER_UP, .touchFinger),
  (EventType.FINGER_MOTION, .touchFinger),
  (EventType.FINGER_CANCELED, .touchFinger),
  (EventType.PINCH_BEGIN, .pinchFinger),
  (EventType.PINCH_UPDATE, .pinchFinger),
  (EventType.PINCH_END, .pinchFinger),
  (EventType.CLIPBOARD_UPDATE, .clipboard)]

def dispatchTable4 : List (Nat × Projection) := [
  (EventType.DROP_FILE, .drop),
  (EventType.DROP_TEXT, .drop),
  (EventType.DROP_BEGIN, .drop),
  (EventType.DROP_COMPLETE, .drop),
  (EventType.DROP_POSITION, .drop),
  (EventType.AUDIO_DEVICE_ADDED, .audioDevice),
  (EventType.AUDIO_DEVICE_REMOVED, .audioDevice),
  (EventType.AUDIO_DEVICE_FORMAT_CHANGED, .audioDevice),
  (EventType.SENSOR_UPDATE, .sensor),
  (EventType.PEN_PROXIMITY_IN, .penProximity),
  (EventType.PEN_PROXIMITY_OUT, .penProximity),
  (EventType.PEN_DOWN, .penTouch),
  (EventType.PEN_UP, .penTouch),
  (EventType.PEN_BUTTON_DOWN, .penButton),
  (EventType.PEN_BUTTON_UP, .penButton),
  (EventType.PEN_MOTION, .penMotion),
  (EventType.PEN_AXIS, .penAxis),
  (EventType.CAMERA_DEVICE_ADDED, .cameraDevice),
  (EventType.CAMERA_DEVICE_REMOVED, .cameraDevice),
  (EventType.CAMERA_DEVICE_APPROVED, .cameraDevice),
  (EventType.CAMERA_DEVICE_DENIED, .cameraDevice),
  (EventType.RENDER_TARGETS_RESET, .render),
  (EventType.RENDER_DEVICE_RESET, .render),
  (EventType.RENDER_DEVICE_LOST, .render),
  (EventType.USER, .user)]

def dispatchTable : List (Nat × Projection) :=
  dispatchTable1 ++ dispatchTable2 ++ dispatchTable3 ++ dispatchTable4

/-- Translation of `EventUnion.toObject` from `src/gen/events.ts`
(lines 361-466): the
switch over the `type` tag, translated case for case in source order
into a first-match chain; the `default` arm resolves tags in the
reserved user range `USER..LAST` to the `user` projection and any
other tag to the generic `common` header projection.  Every projection
getter is a pure read of the backing bytes, so selecting a projection
never throws. -/
def toObject (t : Nat) : Projection :=
  if t = EventType.QUIT then .quit
  else if t = EventType.DISPLAY_ORIENTATION then .display
  else if t = EventType.DISPLAY_ADDED then .display
  else if t = EventType.DISPLAY_REMOVED then .display
  else if t = EventType.DISPLAY_MOVED then .display
  else if t = EventType.DISPLAY_DESKTOP_MODE_CHANGED then .display
  else if t = EventType.DISPLAY_CURRENT_MODE_CHANGED then .display
  else if t = EventType.DISPLAY_CONTENT_SCALE_CHANGED then .display
  else if t = EventType.DISPLAY_USABLE_BOUNDS_CHANGED then .display
  else if t = EventType.WINDOW_SHOWN then .window
  else if t = EventType.WINDOW_HIDDEN then .window
  else if t = EventType.WINDOW_EXPOSED then .window
  else if t = EventType.WINDOW_MOVED then .window
  else if t = EventType.WINDOW_RESIZED then .window
  else if t = EventType.WINDOW_PIXEL_SIZE_CHANGED then .window
  else if t = EventType.WINDOW_METAL_VIEW_RESIZED then .window
  else if t = EventType.WINDOW_MINIMIZED then .window
  else if t = EventType.WINDOW_MAXIMIZED then .window
  else if t = EventType.WINDOW_RESTORED then .window
  else if t = EventType.WINDOW_MOUSE_ENTER then .window
  else if t = EventType.WINDOW_MOUSE_LEAVE then .window
  else if t = EventType.WINDOW_FOCUS_GAINED then .window
  else if t = EventType.WINDOW_FOCUS_LOST then .window
  else if t = EventType.WINDOW_CLOSE_REQUESTED then .window
  else if t = EventType.WINDOW_HIT_TEST then .window
  else if t = EventType.WINDOW_ICCPROF_CHANGED then .window
  else if t = EventType.WINDOW_DISPLAY_CHANGED then .window
  else if t = EventType.WINDOW_DISPLAY_SCALE_CHANGED then .window
  else if t = EventType.WINDOW_SAFE_AREA_CHANGED then .window
  else if t = EventType.WINDOW_OCCLUDED then .window
  else if t = EventType.WINDOW_ENTER_FULLSCREEN then .window
  else if t = EventType.WINDOW_LEAVE_FULLSCREEN then .window
  else if t = EventType.WINDOW_DESTROYED then .window
  else if t = EventType.WINDOW_HDR_STATE_CHANGED then .window
  else if t = EventType.KEY_DOWN then .keyboard
  else if t = EventType.KEY_UP then .keyboard
  else if t = EventType.TEXT_EDITING then .textEditing
  else if t = EventType.TEXT_INPUT then .textInput
  else if t = EventType.KEYBOARD_ADDED then .keyboardDevice
  else if t = EventType.KEYBOARD_REMOVED then .keyboardDevice
  else if t = EventType.TEXT_EDITING_CANDIDATES then .textEditingCandidates
  else if t = EventType.MOUSE_MOTION then .mouseMotion
  else if t = EventType.MOUSE_BUTTON_DOWN then .mouseButton
  else if t = EventType.MOUSE_BUTTON_UP then .mouseButton
  else if t = EventType.MOUSE_WHEEL then .mouseWheel
  else if t = EventType.MOUSE_ADDED then .mouseDevice
  else if t = EventType.MOUSE_REMOVED then .mouseDevice
  else if t = EventType.JOYSTICK_AXIS_MOTION then .joyAxis
  else if t = EventType.JOYSTICK_BALL_MOTION then .joyBall
  else if t = EventType.JOYSTICK_HAT_MOTION then .joyHat
  else if t = EventType.JOYSTICK_BUTTON_DOWN then .joyButton
  else if t = EventType.JOYSTICK_BUTTON_UP then .joyButton
  else if t = EventType.JOYSTICK_ADDED then .joyDevice
  else if t = EventType.JOYSTICK_REMOVED then .joyDevice
  else if t = EventType.JOYSTICK_BATTERY_UPDATED then .joyBattery
  else if t = EventType.JOYSTICK_UPDATE_COMPLETE then .joyDevice
  else if t = EventType.GAMEPAD_AXIS_MOTION then .gamepadAxis
  else if t = EventType.GAMEPAD_BUTTON_DOWN then .gamepadButton
  else if t = EventType.GAMEPAD_BUTTON_UP then .gamepadButton
  else if t = EventType.GAMEPAD_ADDED then .gamepadDevice
  else if t = EventType.GAMEPAD_REMOVED then .gamepadDevice
  else if t = EventType.GAMEPAD_REMAPPED then .gamepadDevice
  else if t = EventType.GAMEPAD_TOUCHPAD_DOWN then .gamepadTouchpad
  else if t = EventType.GAMEPAD_TOUCHPAD_MOTION then .gamepadTouchpad
  else if t = EventType.GAMEPAD_TOUCHPAD_UP then .gamepadTouchpad
  else if t = EventType.GAMEPAD_SENSOR_UPDATE then .gamepadSensor
  else if t = EventType.GAMEPAD_UPDATE_COMPLETE then .gamepadDevice
  else if t = EventType.GAMEPAD_STEAM_HANDLE_UPDATED then .gamepadDevice
  else if t = EventType.FINGER_DOWN then .touchFinger
  else if t = EventType.FINGER_UP then .touchFinger
  else if t = EventType.FINGER_MOTION then .touchFinger
  else if t = EventType.FINGER_CANCELED then .touchFinger
  else if t = EventType.PINCH_BEGIN then .pinchFinger
  else if t = EventType.PINCH_UPDATE then .pinchFinger
  else if t = EventType.PINCH_END then .pinchFinger
  else if t = EventType.CLIPBOARD_UPDATE then .clipboard
  else if t = EventType.DROP_FILE then .drop
  else if t = EventType.DROP_TEXT then .drop
  else if t = EventType.DROP_BEGIN then .drop
  else if t = EventType.DROP_COMPLETE then .drop
  else if t = EventType.DROP_POSITION then .drop
  else if t = EventType.AUDIO_DEVICE_ADDED then .audioDevice
  else if t = EventType.AUDIO_DEVICE_REMOVED then .audioDevice
  else if t = EventType.AUDIO_DEVICE_FORMAT_CHANGED then .audioDevice
  else if t = EventType.SENSOR_UPDATE then .sensor
  else if t = EventType.PEN_PROXIMITY_IN then .penProximity
  else if t = EventType.PEN_PROXIMITY_OUT then .penProximity
  else if t = EventType.PEN_DOWN then .penTouch
  else if t = EventType.PEN_UP then .penTouch
  else if t = EventType.PEN_BUTTON_DOWN then .penButton
  else if t = EventType.PEN_BUTTON_UP then .penButton
  else if t = EventType.PEN_MOTION then .penMotion
  else if t = EventType.PEN_AXIS then .penAxis
  else if t = EventType.CAMERA_DEVICE_ADDED then .cameraDevice
  else if t = EventType.CAMERA_DEVICE_REMOVED then .cameraDevice
  else if t = EventType.CAMERA_DEVICE_APPROVED then .cameraDevice
  else if t = EventType.CAMERA_DEVICE_DENIED then .cameraDevice
  else if t = EventType.RENDER_TARGETS_RESET then .render
  else if t = EventType.RENDER_DEVICE_RESET then .render
  else if t = EventType.RENDER_DEVICE_LOST then .render
  else if t = EventType.USER then .user
  else if EventType.USER ≤ t ∧ t ≤ EventType.LAST then .user
  else .common

/-!
## Event iteration (`Event.iter`, src/unnamed/part_003 lines 191-212)

`iter` is an async generator: it drains the native queue with `poll`,
yielding each event; an event whose cached `type` equals
`EventType.QUIT` is yielded and then the generator returns.  When the
queue is drained without a quit, `onIdle` runs and the loop suspends
until the next frame tick.  The model abstracts the native queue as the
list of event tags it delivers during each tick; only the tags matter
to the termination property.
-/

/-- One inner `while (this.poll())` drain of `Event.iter`: yields the
queued tags in order; a `QUIT` tag is yielded and stops the drain (the
`return` right after `yield`), reporting `true` in the second
component.  Tags queued behind the quit are not yielded. -/
def drainTick : List Nat → List Nat × Bool
  | [] => ([], false)
  | t :: rest =>
    if t = EventType.QUIT then ([t], true)
    else
      let r := drainTick rest
      (t :: r.1, r.2)

/-- The full sequence of tags `Event.iter` yields, given the tags the
native queue delivers at each successive tick.  After a drain that hit
a `QUIT` the generator has returned, so later ticks contribute
nothing. -/
def iterYields : List (List Nat) → List Nat
  | [] => []
  | q :: qs =>
    let r := drainTick q
    if r.2 then r.1 else r.1 ++ iterYields qs

/-- Decidable check that a `QUIT` tag occurs only as the final element
of a yield sequence. -/
def noQuitExceptLast : List Nat → Bool
  | [] => true
  | t :: rest =>
    if t = EventType.QUIT then rest.isEmpty else noQuitExceptLast rest

/-!
## Single-record `Event` accessor (src/unnamed/part_003)

The 128-byte backing buffer is modelled by the decoded common header it
holds (`CommonEvent`); the cached `type` field of the `Event` object is
tracked separately, since it is re-read from the buffer only by
`readType_`.  The native event queue is modelled as the list of records
it will deliver.
-/

/-- The shared common header every event payload variant starts with:
`type` (u32 tag), `reserved` (u32), `timestamp` (u64, nanoseconds). -/
structure CommonEvent where
  type : Nat
  reserved : Nat
  timestamp : Nat
deriving DecidableEq, Repr

/-- A caller-supplied payload for `pushQuit`: the quit record has no
fields beyond the common header, and every field of the argument is
optional (`PartialCommon<QuitEvent>`). -/
structure QuitPatch where
  type : Option Nat
  reserved : Option Nat
  timestamp : Option Nat
deriving DecidableEq, Repr

/-- Modelled from the spec: the record `write_QuitEvent` receives in
`pushQuit` is the JS object spread
`{ type: EventType.QUIT, reserved: 0, timestamp: 0n, ...e }`:
caller-supplied fields override the defaults, absent fields keep them
(the struct writer itself lives in the generated module
`gen/structs/SDL_events.ts`, which is not among the sources here). -/
def mergeQuit (e : QuitPatch) : CommonEvent :=
  ⟨e.type.getD EventType.QUIT, e.reserved.getD 0, e.timestamp.getD 0⟩

/-- The state of one `Event` object: the backing buffer contents, the
cached `type` field, and the native queue it interacts with. -/
structure EventState where
  buf : CommonEvent
  type : Nat
  queue : List CommonEvent
deriving DecidableEq, Repr

/-- Model of `Event.readType_`: re-reads the leading u32 of the backing buffer
into the cached `type` field and reports success. -/
def Event.readType_ (s : EventState) : EventState :=
  ⟨s.buf, s.buf.type, s.queue⟩

/-- Model of `Event.poll`, `SDL.pollEvent(this.pointer) && this.readType_()`.
Modelled from the spec: the native `SDL_PollEvent` removes the next
queued event, stores it into the buffer and returns `true`, or returns
`false` without touching the buffer when the queue is empty (the FFI
binding module `gen/sdl/events.ts` is not among the sources here).
`readType_` runs only when the native call returned `true`. -/
def Event.poll (s : EventState) : EventState × Bool :=
  match s.queue with
  | [] => (s, false)
  | e :: rest => (Event.readType_ ⟨e, s.type, rest⟩, true)

/-- Model of `Event.wait`, `SDL.waitEvent(this.pointer) && this.readType_()`.
Modelled from the spec: the native blocking wait either eventually
stores an event into the buffer and returns `true`, or fails with
`false`; the outcome is abstracted as an oracle argument. -/
def Event.wait (s : EventState) (outcome : Option CommonEvent) :
    EventState × Bool :=
  match outcome with
  | none => (s, false)
  | some e => (Event.readType_ ⟨e, s.type, s.queue⟩, true)

/-- Model of `Event.waitTimeout`, `SDL.waitEventTimeout(this.pointer, timeoutMS)
&& this.readType_()`.  Modelled from the spec like `wait`, with the
bound on the block; a timeout is the `none` outcome. -/
def Event.waitTimeout (s : EventState) (timeoutMS : Nat)
    (outcome : Option CommonEvent) : EventState × Bool :=
  match outcome with
  | none => (s, false)
  | some e => (Event.readType_ ⟨e, s.type, s.queue⟩, true)

/-- Model of `Event.push`, `SDL.pushEvent(this.pointer)`.  Modelled from the
spec: the native push copies the current buffer contents onto the back
of the queue (the success case; failure only reports `false` and is
immaterial to the properties below, which count push calls). -/
def Event.push (s : EventState) : EventState :=
  ⟨s.buf, s.type, s.queue ++ [s.buf]⟩

/-- Modelled from the spec: `write_QuitEvent(r, this.dt)` overwrites the
backing buffer with the given record. -/
def write_QuitEvent (r : CommonEvent) (s : EventState) : EventState :=
  ⟨r, s.type, s.queue⟩

/-- Model of `EventUnion.pushQuit` (src/gen/events.ts lines 345-348), as run by
the single-record `Event`: write the merged quit record through `dt`,
then call `push()` once. -/
def Event.pushQuit (s : EventState) (e : QuitPatch) : EventState :=
  Event.push (write_QuitEvent (mergeQuit e) s)

/-!
## Multi-record `EventArray` batch accessor (src/unnamed/part_003 lines 850-901)

The backing `Uint8Array` of `maxEvents * 128` bytes is modelled as a
list of `maxEvents` record slots.  A thrown exception is an
`Except.error` carrying the message and the object state at the moment
of the throw (a JS throw leaves the object exactly as it was then).
-/

/-- The state of one `EventArray`: configured capacity, fill cursor and
the backing record slots. -/
structure ArrState where
  maxEvents : Nat
  numEvents : Nat
  buf : List CommonEvent
deriving DecidableEq, Repr

/-- A thrown exception together with the object state at the throw. -/
structure Thrown where
  msg : String
  state : ArrState
deriving DecidableEq, Repr

/-- The `EventArray` constructor: capacity as given, cursor zero, and a
zero-filled backing buffer (`new Uint8Array(maxEvents * 128)`). -/
def mkEventArray (maxEvents : Nat) : ArrState :=
  ⟨maxEvents, 0, List.replicate maxEvents ⟨0, 0, 0⟩⟩

/-- Model of `EventArray.push`: throws when the cursor has reached capacity,
otherwise advances the cursor.  The records are untouched either
way. -/
def ArrState.push (s : ArrState) : Except Thrown ArrState :=
  if s.numEvents ≥ s.maxEvents then .error ⟨"PeepEvents buffer full", s⟩
  else .ok ⟨s.maxEvents, s.numEvents + 1, s.buf⟩

/-- Model of `EventArray.dt`: throws when the cursor has reached capacity,
otherwise exposes the 128-byte window of slot `numEvents`; modelled by
the slot index the returned view designates.  Reading `dt` never
mutates the array. -/
def ArrState.dtIndex (s : ArrState) : Except Thrown Nat :=
  if s.numEvents ≥ s.maxEvents then .error ⟨"PeepEvents buffer full", s⟩
  else .ok s.numEvents

/-- Model of `EventUnion.pushQuit` as run by an `EventArray`: evaluating
`this.dt` throws first when the batch is full; otherwise the merged
record is written into slot `numEvents` and `push()` advances the
cursor. -/
def ArrState.pushQuit (s : ArrState) (e : QuitPatch) :
    Except Thrown ArrState :=
  match s.dtIndex with
  | .error err => .error err
  | .ok i => ArrState.push ⟨s.maxEvents, s.numEvents, s.buf.set i (mergeQuit e)⟩

/-- Model of `EventArray.get(index, f)`: throws out of range when
`index >= numEvents`; otherwise saves the cursor, repoints it at
`index`, runs `f` on the array itself, and restores the saved cursor in
a `finally` whether `f` returned or threw. -/
def ArrState.get (s : ArrState) (index : Nat)
    (f : ArrState → Except Thrown ArrState) : Except Thrown ArrState :=
  if index ≥ s.numEvents then .error ⟨"PeepEvents index out of range", s⟩
  else
    match f ⟨s.maxEvents, index, s.buf⟩ with
    | .ok r => .ok ⟨r.maxEvents, s.numEvents, r.buf⟩
    | .error err => .error ⟨err.msg, ⟨err.state.maxEvents, s.numEvents, err.state.buf⟩⟩

/-- The loop of `EventArray.fold`: for `i` from `i` up to `n - 1`,
repoint the cursor at `i` and run `f(this, i)`; a `false` return breaks
the loop, a throw propagates. -/
def foldLoop (f : ArrState → Nat → Except Thrown (ArrState × Bool))
    (n : Nat) (i : Nat) (s : ArrState) : Except Thrown ArrState :=
  if i < n then
    match f ⟨s.maxEvents, i, s.buf⟩ i with
    | .error err => .error err
    | .ok (r, cont) => if cont then foldLoop f n (i + 1) r else .ok r
  else .ok s
termination_by n - i

/-- Model of `EventArray.fold(f)`: runs the loop over the current fill level and
restores the cursor in a `finally` whether the loop completed, broke,
or threw. -/
def ArrState.fold (s : ArrState)
    (f : ArrState → Nat → Except Thrown (ArrState × Bool)) :
    Except Thrown ArrState :=
  match foldLoop f s.numEvents 0 s with
  | .ok r => .ok ⟨r.maxEvents, s.numEvents, r.buf⟩
  | .error err => .error ⟨err.msg, ⟨err.state.maxEvents, s.numEvents, err.state.buf⟩⟩

/-- The object state an operation leaves behind: the result state on
normal return, the state at the throw when it threw. -/
def outState : Except Thrown ArrState → ArrState
  | .ok s => s
  | .error err => err.state

/-!
## Client operation sequences over an `EventArray`

For the batch invariant the callbacks handed to `get` and `fold` are
client code acting on the same array through its own operations; they
are modelled as programs of the following operation language, so that
the invariant is established for every sequence of operations,
callbacks included.
-/

/-- A client program over one `EventArray`: the listed operations in
sequence.  `getP index inner k` runs `get(index, fn)` where `fn` is the
inner program, then continues with `k`; `foldP b inner k` runs
`fold(fn)` where `fn` is the inner program followed by returning `b`
from the callback. -/
inductive Prog : Type where
  | nil : Prog
  | pushP : Prog → Prog
  | pushQuitP : QuitPatch → Prog → Prog
  | dtP : Prog → Prog
  | getP : Nat → Prog → Prog → Prog
  | foldP : Bool → Prog → Prog → Prog

mutual
/-- Run a client program on an `EventArray` state; a throw aborts the
rest of the program, as an uncaught JS exception would.  The `getP` and
`foldP` cases inline `ArrState.get` and `ArrState.fold` with the inner
program as the callback (see `run_getP` and `run_foldP` below, which
prove the inlining equal to the real operations). -/
def run : Prog → ArrState → Except Thrown ArrState
  | .nil, s => .ok s
  | .pushP k, s =>
    match s.push with
    | .error err => .error err
    | .ok r => run k r
  | .pushQuitP e k, s =>
    match s.pushQuit e with
    | .error err => .error err
    | .ok r => run k r
  | .dtP k, s =>
    match s.dtIndex with
    | .error err => .error err
    | .ok _ => run k s
  | .getP index inner k, s =>
    if index ≥ s.numEvents then .error ⟨"PeepEvents index out of range", s⟩
    else
      match run inner ⟨s.maxEvents, index, s.buf⟩ with
      | .ok r => run k ⟨r.maxEvents, s.numEvents, r.buf⟩
      | .error err => .error ⟨err.msg, ⟨err.state.maxEvents, s.numEvents, err.state.buf⟩⟩
  | .foldP b inner k, s =>
    match runFold b inner s.numEvents 0 s with
    | .ok r => run k ⟨r.maxEvents, s.numEvents, r.buf⟩
    | .error err => .error ⟨err.msg, ⟨err.state.maxEvents, s.numEvents, err.state.buf⟩⟩
termination_by p _ => (sizeOf p, 0)

/-- The fold loop with the inner program as callback body and `b` as
the value the callback returns. -/
def runFold (b : Bool) (inner : Prog) (n i : Nat) (s : ArrState) :
    Except Thrown ArrState :=
  if i < n then
    match run inner ⟨s.maxEvents, i, s.buf⟩ with
    | .error err => .error err
    | .ok r => if b then runFold b inner n (i + 1) r else .ok r
  else .ok s
termination_by (sizeOf inner, n - i + 1)
end

/-- The callback an inner program denotes when handed to
`EventArray.fold`: run the program on the array, then return `b` from
the callback. -/
def foldCallback (b : Bool) (inner : Prog) :
    ArrState → Nat → Except Thrown (ArrState × Bool) :=
  fun st _ =>
    match run inner st with
    | .error err => .error err
    | .ok r => .ok (r, b)

/-- The batch invariant: the fill cursor never exceeds the configured
capacity, and the backing buffer has exactly the configured number of
record slots. -/
def ArrInv (s : ArrState) : Prop :=
  s.numEvents ≤ s.maxEvents ∧ s.buf.length = s.maxEvents

/-- What one completed (or thrown) operation preserves: the capacity is
untouched, the backing buffer is never resized, and the cursor respects
the capacity. -/
def ArrPres (s r : ArrState) : Prop :=
  r.maxEvents = s.maxEvents ∧ r.buf.length = s.buf.length ∧
    r.numEvents ≤ r.maxEvents

/-- Helper: every tag in the reserved user range resolves to the `user`
projection; the only enumerated case label inside the range is `USER`
itself, whose arm also returns `user`, and the default arm resolves the
rest of the range to `user`. -/
theorem toObject_user_range (t : Nat) (hu : EventType.USER ≤ t)
    (hl : t ≤ EventType.LAST) : toObject t = Projection.user := by
  have hu27 : 32768 ≤ t := hu
  have hQUIT : ¬ t = EventType.QUIT := by simp only [EventType.QUIT]; omega
  have hDISPLAY_ORIENTATION : ¬ t = EventType.DISPLAY_ORIENTATION := by simp only [EventType.DISPLAY_ORIENTATION]; omega
  have hDISPLAY_ADDED : ¬ t = EventType.DISPLAY_ADDED := by simp only [EventType.DISPLAY_ADDED]; omega
  have hDISPLAY_REMOVED : ¬ t = EventType.DISPLAY_REMOVED := by simp only [EventType.DISPLAY_REMOVED]; omega
  have hDISPLAY_MOVED : ¬ t = EventType.DISPLAY_MOVED := by simp only [EventType.DISPLAY_MOVED]; omega
  have hDISPLAY_DESKTOP_MODE_CHANGED : ¬ t = EventType.DISPLAY_DESKTOP_MODE_CHANGED := by simp only [EventType.DISPLAY_DESKTOP_MODE_CHANGED]; omega
  have hDISPLAY_CURRENT_MODE_CHANGED : ¬ t = EventType.DISPLAY_CURRENT_MODE_CHANGED := by simp only [EventType.DISPLAY_CURRENT_MODE_CHANGED]; omega
  have hDISPLAY_CONTENT_SCALE_CHANGED : ¬ t = EventType.DISPLAY_CONTENT_SCALE_CHANGED := by simp only [EventType.DISPLAY_CONTENT_SCALE_CHANGED]; omega
  have hDISPLAY_USABLE_BOUNDS_CHANGED : ¬ t = EventType.DISPLAY_USABLE_BOUNDS_CHANGED := by simp only [EventType.DISPLAY_USABLE_BOUNDS_CHANGED]; omega
  have hWINDOW_SHOWN : ¬ t = EventType.WINDOW_SHOWN := by simp only [EventType.WINDOW_SHOWN]; omega
  have hWINDOW_HIDDEN : ¬ t = EventType.WINDOW_HIDDEN := by simp only [EventType.WINDOW_HIDDEN]; omega
  have hWINDOW_EXPOSED : ¬ t = EventType.WINDOW_EXPOSED := by simp only [EventType.WINDOW_EXPOSED]; omega
  have hWINDOW_MOVED : ¬ t = EventType.WINDOW_MOVED := by simp only [EventType.WINDOW_MOVED]; omega
  have hWINDOW_RESIZED : ¬ t = EventType.WINDOW_RESIZED := by simp only [EventType.WINDOW_RESIZED]; omega
  have hWINDOW_PIXEL_SIZE_CHANGED : ¬ t = EventType.WINDOW_PIXEL_SIZE_CHANGED := by simp only [EventType.WINDOW_PIXEL_SIZE_CHANGED]; omega
  have hWINDOW_METAL_VIEW_RESIZED : ¬ t = EventType.WINDOW_METAL_VIEW_RESIZED := by simp only [EventType.WINDOW_METAL_VIEW_RESIZED]; omega
  have hWINDOW_MINIMIZED : ¬ t = EventType.WINDOW_MINIMIZED := by simp only [EventType.WINDOW_MINIMIZED]; omega
  have hWINDOW_MAXIMIZED : ¬ t = EventType.WINDOW_MAXIMIZED := by simp only [EventType.WINDOW_MAXIMIZED]; omega
  have hWINDOW_RESTORED : ¬ t = EventType.WINDOW_RESTORED := by simp only [EventType.WINDOW_RESTORED]; omega
  have hWINDOW_MOUSE_ENTER : ¬ t = EventType.WINDOW_MOUSE_ENTER := by simp only [EventType.WINDOW_MOUSE_ENTER]; omega
  have hWINDOW_MOUSE_LEAVE : ¬ t = EventType.WINDOW_MOUSE_LEAVE := by simp only [EventType.WINDOW_MOUSE_LEAVE]; omega
  have hWINDOW_FOCUS_GAINED : ¬ t = EventType.WINDOW_FOCUS_GAINED := by simp only [EventType.WINDOW_FOCUS_GAINED]; omega
  have hWINDOW_FOCUS_LOST : ¬ t = EventType.WINDOW_FOCUS_LOST := by simp only [EventType.WINDOW_FOCUS_LOST]; omega
  have hWINDOW_CLOSE_REQUESTED : ¬ t = EventType.WINDOW_CLOSE_REQUESTED := by simp only [EventType.WINDOW_CLOSE_REQUESTED]; omega
  have hWINDOW_HIT_TEST : ¬ t = EventType.WINDOW_HIT_TEST := by simp only [EventType.WINDOW_HIT_TEST]; omega
  have hWINDOW_ICCPROF_CHANGED : ¬ t = EventType.WINDOW_ICCPROF_CHANGED := by simp only [EventType.WINDOW_ICCPROF_CHANGED]; omega
  have hWINDOW_DISPLAY_CHANGED : ¬ t = EventType.WINDOW_DISPLAY_CHANGED := by simp only [EventType.WINDOW_DISPLAY_CHANGED]; omega
  have hWINDOW_DISPLAY_SCALE_CHANGED : ¬ t = EventType.WINDOW_DISPLAY_SCALE_CHANGED := by simp only [EventType.WINDOW_DISPLAY_SCALE_CHANGED]; omega
  have hWINDOW_SAFE_AREA_CHANGED : ¬ t = EventType.WINDOW_SAFE_AREA_CHANGED := by simp only [EventType.WINDOW_SAFE_AREA_CHANGED]; omega
  have hWINDOW_OCCLUDED : ¬ t = EventType.WINDOW_OCCLUDED := by simp only [EventType.WINDOW_OCCLUDED]; omega
  have hWINDOW_ENTER_FULLSCREEN : ¬ t = EventType.WINDOW_ENTER_FULLSCREEN := by simp only [EventType.WINDOW_ENTER_FULLSCREEN]; omega
  have hWINDOW_LEAVE_FULLSCREEN : ¬ t = EventType.WINDOW_LEAVE_FULLSCREEN := by simp only [EventType.WINDOW_LEAVE_FULLSCREEN]; omega
  have hWINDOW_DESTROYED : ¬ t = EventType.WINDOW_DESTROYED := by simp only [EventType.WINDOW_DESTROYED]; omega
  have hWINDOW_HDR_STATE_CHANGED : ¬ t = EventType.WINDOW_HDR_STATE_CHANGED := by simp only [EventType.WINDOW_HDR_STATE_CHANGED]; omega
  have hKEY_DOWN : ¬ t = EventType.KEY_DOWN := by simp only [EventType.KEY_DOWN]; omega
  have hKEY_UP : ¬ t = EventType.KEY_UP := by simp only [EventType.KEY_UP]; omega
  have hTEXT_EDITING : ¬ t = EventType.TEXT_EDITING := by simp only [EventType.TEXT_EDITING]; omega
  have hTEXT_INPUT : ¬ t = EventType.TEXT_INPUT := by simp only [EventType.TEXT_INPUT]; omega
  have hKEYBOARD_ADDED : ¬ t = EventType.KEYBOARD_ADDED := by simp only [EventType.KEYBOARD_ADDED]; omega
  have hKEYBOARD_REMOVED : ¬ t = EventType.KEYBOARD_REMOVED := by simp only [EventType.KEYBOARD_REMOVED]; omega
  have hTEXT_EDITING_CANDIDATES : ¬ t = EventType.TEXT_EDITING_CANDIDATES := by simp only [EventType.TEXT_EDITING_CANDIDATES]; omega
  have hMOUSE_MOTION : ¬ t = EventType.MOUSE_MOTION := by simp only [EventType.MOUSE_MOTION]; omega
  have hMOUSE_BUTTON_DOWN : ¬ t = EventType.MOUSE_BUTTON_DOWN := by simp only [EventType.MOUSE_BUTTON_DOWN]; omega
  have hMOUSE_BUTTON_UP : ¬ t = EventType.MOUSE_BUTTON_UP := by simp only [EventType.MOUSE_BUTTON_UP]; omega
  have hMOUSE_WHEEL : ¬ t = EventType.MOUSE_WHEEL := by simp only [EventType.MOUSE_WHEEL]; omega
  have hMOUSE_ADDED : ¬ t = EventType.MOUSE_ADDED := by simp only [EventType.MOUSE_ADDED]; omega
  have hMOUSE_REMOVED : ¬ t = EventType.MOUSE_REMOVED := by simp only [EventType.MOUSE_REMOVED]; omega
  have hJOYSTICK_AXIS_MOTION : ¬ t = EventType.JOYSTICK_AXIS_MOTION := by simp only [EventType.JOYSTICK_AXIS_MOTION]; omega
  have hJOYSTICK_BALL_MOTION : ¬ t = EventType.JOYSTICK_BALL_MOTION := by simp only [EventType.JOYSTICK_BALL_MOTION]; omega
  have hJOYSTICK_HAT_MOTION : ¬ t = EventType.JOYSTICK_HAT_MOTION := by simp only [EventType.JOYSTICK_HAT_MOTION]; omega
  have hJOYSTICK_BUTTON_DOWN : ¬ t = EventType.JOYSTICK_BUTTON_DOWN := by simp only [EventType.JOYSTICK_BUTTON_DOWN]; omega
  have hJOYSTICK_BUTTON_UP : ¬ t = EventType.JOYSTICK_BUTTON_UP := by simp only [EventType.JOYSTICK_BUTTON_UP]; omega
  have hJOYSTICK_ADDED : ¬ t = EventType.JOYSTICK_ADDED := by simp only [EventType.JOYSTICK_ADDED]; omega
  have hJOYSTICK_REMOVED : ¬ t = EventType.JOYSTICK_REMOVED := by simp only [EventType.JOYSTICK_REMOVED]; omega
  have hJOYSTICK_BATTERY_UPDATED : ¬ t = EventType.JOYSTICK_BATTERY_UPDATED := by simp only [EventType.JOYSTICK_BATTERY_UPDATED]; omega
  have hJOYSTICK_UPDATE_COMPLETE : ¬ t = EventType.JOYSTICK_UPDATE_COMPLETE := by simp only [EventType.JOYSTICK_UPDATE_COMPLETE]; omega
  have hGAMEPAD_AXIS_MOTION : ¬ t = EventType.GAMEPAD_AXIS_MOTION := by simp only [EventType.GAMEPAD_AXIS_MOTION]; omega
  have hGAMEPAD_BUTTON_DOWN : ¬ t = EventType.GAMEPAD_BUTTON_DOWN := by simp only [EventType.GAMEPAD_BUTTON_DOWN]; omega
  have hGAMEPAD_BUTTON_UP : ¬ t = EventType.GAMEPAD_BUTTON_UP := by simp only [EventType.GAMEPAD_BUTTON_UP]; omega
  have hGAMEPAD_ADDED : ¬ t = EventType.GAMEPAD_ADDED := by simp only [EventType.GAMEPAD_ADDED]; omega
  have hGAMEPAD_REMOVED : ¬ t = EventType.GAMEPAD_REMOVED := by simp only [EventType.GAMEPAD_REMOVED]; omega
  have hGAMEPAD_REMAPPED : ¬ t = EventType.GAMEPAD_REMAPPED := by simp only [EventType.GAMEPAD_REMAPPED]; omega
  have hGAMEPAD_TOUCHPAD_DOWN : ¬ t = EventType.GAMEPAD_TOUCHPAD_DOWN := by simp only [EventType.GAMEPAD_TOUCHPAD_DOWN]; omega
  have hGAMEPAD_TOUCHPAD_MOTION : ¬ t = EventType.GAMEPAD_TOUCHPAD_MOTION := by simp only [EventType.GAMEPAD_TOUCHPAD_MOTION]; omega
  have hGAMEPAD_TOUCHPAD_UP : ¬ t = EventType.GAMEPAD_TOUCHPAD_UP := by simp only [EventType.GAMEPAD_TOUCHPAD_UP]; omega
  have hGAMEPAD_SENSOR_UPDATE : ¬ t = EventType.GAMEPAD_SENSOR_UPDATE := by simp only [EventType.GAMEPAD_SENSOR_UPDATE]; omega
  have hGAMEPAD_UPDATE_COMPLETE : ¬ t = EventType.GAMEPAD_UPDATE_COMPLETE := by simp only [EventType.GAMEPAD_UPDATE_COMPLETE]; omega
  have hGAMEPAD_STEAM_HANDLE_UPDATED : ¬ t = EventType.GAMEPAD_STEAM_HANDLE_UPDATED := by simp only [EventType.GAMEPAD_STEAM_HANDLE_UPDATED]; omega
  have hFINGER_DOWN : ¬ t = EventType.FINGER_DOWN := by simp only [EventType.FINGER_DOWN]; omega
  have hFINGER_UP : ¬ t = EventType.FINGER_UP := by simp only [EventType.FINGER_UP]; omega
  have hFINGER_MOTION : ¬ t = EventType.FINGER_MOTION := by simp only [EventType.FINGER_MOTION]; omega
  have hFINGER_CANCELED : ¬ t = EventType.FINGER_CANCELED := by simp only [EventType.FINGER_CANCELED]; omega
  have hPINCH_BEGIN : ¬ t = EventType.PINCH_BEGIN := by simp only [EventType.PINCH_BEGIN]; omega
  have hPINCH_UPDATE : ¬ t = EventType.PINCH_UPDATE := by simp only [EventType.PINCH_UPDATE]; omega
  have hPINCH_END : ¬ t = EventType.PINCH_END := by simp only [EventType.PINCH_END]; omega
  have hCLIPBOARD_UPDATE : ¬ t = EventType.CLIPBOARD_UPDATE := by simp only [EventType.CLIPBOARD_UPDATE]; omega
  have hDROP_FILE : ¬ t = EventType.DROP_FILE := by simp only [EventType.DROP_FILE]; omega
  have hDROP_TEXT : ¬ t = EventType.DROP_TEXT := by simp only [EventType.DROP_TEXT]; omega
  have hDROP_BEGIN : ¬ t = EventType.DROP_BEGIN := by simp only [EventType.DROP_BEGIN]; omega
  have hDROP_COMPLETE : ¬ t = EventType.DROP_COMPLETE := by simp only [EventType.DROP_COMPLETE]; omega
  have hDROP_POSITION : ¬ t = EventType.DROP_POSITION := by simp only [EventType.DROP_POSITION]; omega
  have hAUDIO_DEVICE_ADDED : ¬ t = EventType.AUDIO_DEVICE_ADDED := by simp only [EventType.AUDIO_DEVICE_ADDED]; omega
  have hAUDIO_DEVICE_REMOVED : ¬ t = EventType.AUDIO_DEVICE_REMOVED := by simp only [EventType.AUDIO_DEVICE_REMOVED]; omega
  have hAUDIO_DEVICE_FORMAT_CHANGED : ¬ t = EventType.AUDIO_DEVICE_FORMAT_CHANGED := by simp only [EventType.AUDIO_DEVICE_FORMAT_CHANGED]; omega
  have hSENSOR_UPDATE : ¬ t = EventType.SENSOR_UPDATE := by simp only [EventType.SENSOR_UPDATE]; omega
  have hPEN_PROXIMITY_IN : ¬ t = EventType.PEN_PROXIMITY_IN := by simp only [EventType.PEN_PROXIMITY_IN]; omega
  have hPEN_PROXIMITY_OUT : ¬ t = EventType.PEN_PROXIMITY_OUT := by simp only [EventType.PEN_PROXIMITY_OUT]; omega
  have hPEN_DOWN : ¬ t = EventType.PEN_DOWN := by simp only [EventType.PEN_DOWN]; omega
  have hPEN_UP : ¬ t = EventType.PEN_UP := by simp only [EventType.PEN_UP]; omega
  have hPEN_BUTTON_DOWN : ¬ t = EventType.PEN_BUTTON_DOWN := by simp only [EventType.PEN_BUTTON_DOWN]; omega
  have hPEN_BUTTON_UP : ¬ t = EventType.PEN_BUTTON_UP := by simp only [EventType.PEN_BUTTON_UP]; omega
  have hPEN_MOTION : ¬ t = EventType.PEN_MOTION := by simp only [EventType.PEN_MOTION]; omega
  have hPEN_AXIS : ¬ t = EventType.PEN_AXIS := by simp only [EventType.PEN_AXIS]; omega
  have hCAMERA_DEVICE_ADDED : ¬ t = EventType.CAMERA_DEVICE_ADDED := by simp only [EventType.CAMERA_DEVICE_ADDED]; omega
  have hCAMERA_DEVICE_REMOVED : ¬ t = EventType.CAMERA_DEVICE_REMOVED := by simp only [EventType.CAMERA_DEVICE_REMOVED]; omega
  have hCAMERA_DEVICE_APPROVED : ¬ t = EventType.CAMERA_DEVICE_APPROVED := by simp only [EventType.CAMERA_DEVICE_APPROVED]; omega
  have hCAMERA_DEVICE_DENIED : ¬ t = EventType.CAMERA_DEVICE_DENIED := by simp only [EventType.CAMERA_DEVICE_DENIED]; omega
  have hRENDER_TARGETS_RESET : ¬ t = EventType.RENDER_TARGETS_RESET := by simp only [EventType.RENDER_TARGETS_RESET]; omega
  have hRENDER_DEVICE_RESET : ¬ t = EventType.RENDER_DEVICE_RESET := by simp only [EventType.RENDER_DEVICE_RESET]; omega
  have hRENDER_DEVICE_LOST : ¬ t = EventType.RENDER_DEVICE_LOST := by simp only [EventType.RENDER_DEVICE_LOST]; omega
  by_cases hU : t = EventType.USER
  · unfold toObject
    rw [if_neg hQUIT, if_neg hDISPLAY_ORIENTATION, if_neg hDISPLAY_ADDED, if_neg hDISPLAY_REMOVED, if_neg hDISPLAY_MOVED, if_neg hDISPLAY_DESKTOP_MODE_CHANGED, if_neg hDISPLAY_CURRENT_MODE_CHANGED, if_neg hDISPLAY_CONTENT_SCALE_CHANGED, if_neg hDISPLAY_USABLE_BOUNDS_CHANGED, if_neg hWINDOW_SHOWN, if_neg hWINDOW_HIDDEN, if_neg hWINDOW_EXPOSED, if_neg hWINDOW_MOVED, if_neg hWINDOW_RESIZED, if_neg hWINDOW_PIXEL_SIZE_CHANGED, if_neg hWINDOW_METAL_VIEW_RESIZED, if_neg hWINDOW_MINIMIZED, if_neg hWINDOW_MAXIMIZED, if_neg hWINDOW_RESTORED, if_neg hWINDOW_MOUSE_ENTER, if_neg hWINDOW_MOUSE_LEAVE, if_neg hWINDOW_FOCUS_GAINED, if_neg hWINDOW_FOCUS_LOST, if_neg hWINDOW_CLOSE_REQUESTED, if_neg hWINDOW_HIT_TEST, if_neg hWINDOW_ICCPROF_CHANGED, if_neg hWINDOW_DISPLAY_CHANGED, if_neg hWINDOW_DISPLAY_SCALE_CHANGED, if_neg hWINDOW_SAFE_AREA_CHANGED, if_neg hWINDOW_OCCLUDED, if_neg hWINDOW_ENTER_FULLSCREEN, if_neg hWINDOW_LEAVE_FULLSCREEN, if_neg hWINDOW_DESTROYED, if_neg hWINDOW_HDR_STATE_CHANGED, if_neg hKEY_DOWN, if_neg hKEY_UP, if_neg hTEXT_EDITING, if_neg hTEXT_INPUT, if_neg hKEYBOARD_ADDED, if_neg hKEYBOARD_REMOVED, if_neg hTEXT_EDITING_CANDIDATES, if_neg hMOUSE_MOTION, if_neg hMOUSE_BUTTON_DOWN, if_neg hMOUSE_BUTTON_UP, if_neg hMOUSE_WHEEL, if_neg hMOUSE_ADDED, if_neg hMOUSE_REMOVED, if_neg hJOYSTICK_AXIS_MOTION, if_neg hJOYSTICK_BALL_MOTION, if_neg hJOYSTICK_HAT_MOTION, if_neg hJOYSTICK_BUTTON_DOWN, if_neg hJOYSTICK_BUTTON_UP, if_neg hJOYSTICK_ADDED, if_neg hJOYSTICK_REMOVED, if_neg hJOYSTICK_BATTERY_UPDATED, if_neg hJOYSTICK_UPDATE_COMPLETE, if_neg hGAMEPAD_AXIS_MOTION, if_neg hGAMEPAD_BUTTON_DOWN, if_neg hGAMEPAD_BUTTON_UP, if_neg hGAMEPAD_ADDED, if_neg hGAMEPAD_REMOVED, if_neg hGAMEPAD_REMAPPED, if_neg hGAMEPAD_TOUCHPAD_DOWN, if_neg hGAMEPAD_TOUCHPAD_MOTION, if_neg hGAMEPAD_TOUCHPAD_UP, if_neg hGAMEPAD_SENSOR_UPDATE, if_neg hGAMEPAD_UPDATE_COMPLETE, if_neg hGAMEPAD_STEAM_HANDLE_UPDATED, if_neg hFINGER_DOWN, if_neg hFINGER_UP, if_neg hFINGER_MOTION, if_neg hFINGER_CANCELED, if_neg hPINCH_BEGIN, if_neg hPINCH_UPDATE, if_neg hPINCH_END, if_neg hCLIPBOARD_UPDATE, if_neg hDROP_FILE, if_neg hDROP_TEXT, if_neg hDROP_BEGIN, if_neg hDROP_COMPLETE, if_neg hDROP_POSITION, if_neg hAUDIO_DEVICE_ADDED, if_neg hAUDIO_DEVICE_REMOVED, if_neg hAUDIO_DEVICE_FORMAT_CHANGED, if_neg hSENSOR_UPDATE, if_neg hPEN_PROXIMITY_IN, if_neg hPEN_PROXIMITY_OUT, if_neg hPEN_DOWN, if_neg hPEN_UP, if_neg hPEN_BUTTON_DOWN, if_neg hPEN_BUTTON_UP, if_neg hPEN_MOTION, if_neg hPEN_AXIS, if_neg hCAMERA_DEVICE_ADDED, if_neg hCAMERA_DEVICE_REMOVED, if_neg hCAMERA_DEVICE_APPROVED, if_neg hCAMERA_DEVICE_DENIED, if_neg hRENDER_TARGETS_RESET, if_neg hRENDER_DEVICE_RESET, if_neg hRENDER_DEVICE_LOST, if_pos hU]
  · unfold toObject
    rw [if_neg hQUIT, if_neg hDISPLAY_ORIENTATION, if_neg hDISPLAY_ADDED, if_neg hDISPLAY_REMOVED, if_neg hDISPLAY_MOVED, if_neg hDISPLAY_DESKTOP_MODE_CHANGED, if_neg hDISPLAY_CURRENT_MODE_CHANGED, if_neg hDISPLAY_CONTENT_SCALE_CHANGED, if_neg hDISPLAY_USABLE_BOUNDS_CHANGED, if_neg hWINDOW_SHOWN, if_neg hWINDOW_HIDDEN, if_neg hWINDOW_EXPOSED, if_neg hWINDOW_MOVED, if_neg hWINDOW_RESIZED, if_neg hWINDOW_PIXEL_SIZE_CHANGED, if_neg hWINDOW_METAL_VIEW_RESIZED, if_neg hWINDOW_MINIMIZED, if_neg hWINDOW_MAXIMIZED, if_neg hWINDOW_RESTORED, if_neg hWINDOW_MOUSE_ENTER, if_neg hWINDOW_MOUSE_LEAVE, if_neg hWINDOW_FOCUS_GAINED, if_neg hWINDOW_FOCUS_LOST, if_neg hWINDOW_CLOSE_REQUESTED, if_neg hWINDOW_HIT_TEST, if_neg hWINDOW_ICCPROF_CHANGED, if_neg hWINDOW_DISPLAY_CHANGED, if_neg hWINDOW_DISPLAY_SCALE_CHANGED, if_neg hWINDOW_SAFE_AREA_CHANGED, if_neg hWINDOW_OCCLUDED, if_neg hWINDOW_ENTER_FULLSCREEN, if_neg hWINDOW_LEAVE_FULLSCREEN, if_neg hWINDOW_DESTROYED, if_neg hWINDOW_HDR_STATE_CHANGED, if_neg hKEY_DOWN, if_neg hKEY_UP, if_neg hTEXT_EDITING, if_neg hTEXT_INPUT, if_neg hKEYBOARD_ADDED, if_neg hKEYBOARD_REMOVED, if_neg hTEXT_EDITING_CANDIDATES, if_neg hMOUSE_MOTION, if_neg hMOUSE_BUTTON_DOWN, if_neg hMOUSE_BUTTON_UP, if_neg hMOUSE_WHEEL, if_neg hMOUSE_ADDED, if_neg hMOUSE_REMOVED, if_neg hJOYSTICK_AXIS_MOTION, if_neg hJOYSTICK_BALL_MOTION, if_neg hJOYSTICK_HAT_MOTION, if_neg hJOYSTICK_BUTTON_DOWN, if_neg hJOYSTICK_BUTTON_UP, if_neg hJOYSTICK_ADDED, if_neg hJOYSTICK_REMOVED, if_neg hJOYSTICK_BATTERY_UPDATED, if_neg hJOYSTICK_UPDATE_COMPLETE, if_neg hGAMEPAD_AXIS_MOTION, if_neg hGAMEPAD_BUTTON_DOWN, if_neg hGAMEPAD_BUTTON_UP, if_neg hGAMEPAD_ADDED, if_neg hGAMEPAD_REMOVED, if_neg hGAMEPAD_REMAPPED, if_neg hGAMEPAD_TOUCHPAD_DOWN, if_neg hGAMEPAD_TOUCHPAD_MOTION, if_neg hGAMEPAD_TOUCHPAD_UP, if_neg hGAMEPAD_SENSOR_UPDATE, if_neg hGAMEPAD_UPDATE_COMPLETE, if_neg hGAMEPAD_STEAM_HANDLE_UPDATED, if_neg hFINGER_DOWN, if_neg hFINGER_UP, if_neg hFINGER_MOTION, if_neg hFINGER_CANCELED, if_neg hPINCH_BEGIN, if_neg hPINCH_UPDATE, if_neg hPINCH_END, if_neg hCLIPBOARD_UPDATE, if_neg hDROP_FILE, if_neg hDROP_TEXT, if_neg hDROP_BEGIN, if_neg hDROP_COMPLETE, if_neg hDROP_POSITION, if_neg hAUDIO_DEVICE_ADDED, if_neg hAUDIO_DEVICE_REMOVED, if_neg hAUDIO_DEVICE_FORMAT_CHANGED, if_neg hSENSOR_UPDATE, if_neg hPEN_PROXIMITY_IN, if_neg hPEN_PROXIMITY_OUT, if_neg hPEN_DOWN, if_neg hPEN_UP, if_neg hPEN_BUTTON_DOWN, if_neg hPEN_BUTTON_UP, if_neg hPEN_MOTION, if_neg hPEN_AXIS, if_neg hCAMERA_DEVICE_ADDED, if_neg hCAMERA_DEVICE_REMOVED, if_neg hCAMERA_DEVICE_APPROVED, if_neg hCAMERA_DEVICE_DENIED, if_neg hRENDER_TARGETS_RESET, if_neg hRENDER_DEVICE_RESET, if_neg hRENDER_DEVICE_LOST, if_neg hU, if_pos (And.intro hu hl)]

/-- Helper: a tag that is not an enumerated case label and lies outside
the reserved user range falls through every arm to the generic common
projection. -/
theorem toObject_unknown_tag (t : Nat) (hmem : t ∉ dispatchTable.map Prod.fst)
    (hrange : ¬(EventType.USER ≤ t ∧ t ≤ EventType.LAST)) :
    toObject t = Projection.common := by
  have hQUIT : ¬ t = EventType.QUIT := fun he => hmem (by rw [he]; decide)
  have hDISPLAY_ORIENTATION : ¬ t = EventType.DISPLAY_ORIENTATION := fun he => hmem (by rw [he]; decide)
  have hDISPLAY_ADDED : ¬ t = EventType.DISPLAY_ADDED := fun he => hmem (by rw [he]; decide)
  have hDISPLAY_REMOVED : ¬ t = EventType.DISPLAY_REMOVED := fun he => hmem (by rw [he]; decide)
  have hDISPLAY_MOVED : ¬ t = EventType.DISPLAY_MOVED := fun he => hmem (by rw [he]; decide)
  have hDISPLAY_DESKTOP_MODE_CHANGED : ¬ t = EventType.DISPLAY_DESKTOP_MODE_CHANGED := fun he => hmem (by rw [he]; decide)
  have hDISPLAY_CURRENT_MODE_CHANGED : ¬ t = EventType.DISPLAY_CURRENT_MODE_CHANGED := fun he => hmem (by rw [he]; decide)
  have hDISPLAY_CONTENT_SCALE_CHANGED : ¬ t = EventType.DISPLAY_CONTENT_SCALE_CHANGED := fun he => hmem (by rw [he]; decide)
  have hDISPLAY_USABLE_BOUNDS_CHANGED : ¬ t = EventType.DISPLAY_USABLE_BOUNDS_CHANGED := fun he => hmem (by rw [he]; decide)
  have hWINDOW_SHOWN : ¬ t = EventType.WINDOW_SHOWN := fun he => hmem (by rw [he]; decide)
  have hWINDOW_HIDDEN : ¬ t = EventType.WINDOW_HIDDEN := fun he => hmem (by rw [he]; decide)
  have hWINDOW_EXPOSED : ¬ t = EventType.WINDOW_EXPOSED := fun he => hmem (by rw [he]; decide)
  have hWINDOW_MOVED : ¬ t = EventType.WINDOW_MOVED := fun he => hmem (by rw [he]; decide)
  have hWINDOW_RESIZED : ¬ t = EventType.WINDOW_RESIZED := fun he => hmem (by rw [he]; decide)
  have hWINDOW_PIXEL_SIZE_CHANGED : ¬ t = EventType.WINDOW_PIXEL_SIZE_CHANGED := fun he => hmem (by rw [he]; decide)
  have hWINDOW_METAL_VIEW_RESIZED : ¬ t = EventType.WINDOW_METAL_VIEW_RESIZED := fun he => hmem (by rw [he]; decide)
  have hWINDOW_MINIMIZED : ¬ t = EventType.WINDOW_MINIMIZED := fun he => hmem (by rw [he]; decide)
  have hWINDOW_MAXIMIZED : ¬ t = EventType.WINDOW_MAXIMIZED := fun he => hmem (by rw [he]; decide)
  have hWINDOW_RESTORED : ¬ t = EventType.WINDOW_RESTORED := fun he => hmem (by rw [he]; decide)
  have hWINDOW_MOUSE_ENTER : ¬ t = EventType.WINDOW_MOUSE_ENTER := fun he => hmem (by rw [he]; decide)
  have hWINDOW_MOUSE_LEAVE : ¬ t = EventType.WINDOW_MOUSE_LEAVE := fun he => hmem (by rw [he]; decide)
  have hWINDOW_FOCUS_GAINED : ¬ t = EventType.WINDOW_FOCUS_GAINED := fun he => hmem (by rw [he]; decide)
  have hWINDOW_FOCUS_LOST : ¬ t = EventType.WINDOW_FOCUS_LOST := fun he => hmem (by rw [he]; decide)
  have hWINDOW_CLOSE_REQUESTED : ¬ t = EventType.WINDOW_CLOSE_REQUESTED := fun he => hmem (by rw [he]; decide)
  have hWINDOW_HIT_TEST : ¬ t = EventType.WINDOW_HIT_TEST := fun he => hmem (by rw [he]; decide)
  have hWINDOW_ICCPROF_CHANGED : ¬ t = EventType.WINDOW_ICCPROF_CHANGED := fun he => hmem (by rw [he]; decide)
  have hWINDOW_DISPLAY_CHANGED : ¬ t = EventType.WINDOW_DISPLAY_CHANGED := fun he => hmem (by rw [he]; decide)
  have hWINDOW_DISPLAY_SCALE_CHANGED : ¬ t = EventType.WINDOW_DISPLAY_SCALE_CHANGED := fun he => hmem (by rw [he]; decide)
  have hWINDOW_SAFE_AREA_CHANGED : ¬ t = EventType.WINDOW_SAFE_AREA_CHANGED := fun he => hmem (by rw [he]; decide)
  have hWINDOW_OCCLUDED : ¬ t = EventType.WINDOW_OCCLUDED := fun he => hmem (by rw [he]; decide)
  have hWINDOW_ENTER_FULLSCREEN : ¬ t = EventType.WINDOW_ENTER_FULLSCREEN := fun he => hmem (by rw [he]; decide)
  have hWINDOW_LEAVE_FULLSCREEN : ¬ t = EventType.WINDOW_LEAVE_FULLSCREEN := fun he => hmem (by rw [he]; decide)
  have hWINDOW_DESTROYED : ¬ t = EventType.WINDOW_DESTROYED := fun he => hmem (by rw [he]; decide)
  have hWINDOW_HDR_STATE_CHANGED : ¬ t = EventType.WINDOW_HDR_STATE_CHANGED := fun he => hmem (by rw [he]; decide)
  have hKEY_DOWN : ¬ t = EventType.KEY_DOWN := fun he => hmem (by rw [he]; decide)
  have hKEY_UP : ¬ t = EventType.KEY_UP := fun he => hmem (by rw [he]; decide)
  have hTEXT_EDITING : ¬ t = EventType.TEXT_EDITING := fun he => hmem (by rw [he]; decide)
  have hTEXT_INPUT : ¬ t = EventType.TEXT_INPUT := fun he => hmem (by rw [he]; decide)
  have hKEYBOARD_ADDED : ¬ t = EventType.KEYBOARD_ADDED := fun he => hmem (by rw [he]; decide)
  have hKEYBOARD_REMOVED : ¬ t = EventType.KEYBOARD_REMOVED := fun he => hmem (by rw [he]; decide)
  have hTEXT_EDITING_CANDIDATES : ¬ t = EventType.TEXT_EDITING_CANDIDATES := fun he => hmem (by rw [he]; decide)
  have hMOUSE_MOTION : ¬ t = EventType.MOUSE_MOTION := fun he => hmem (by rw [he]; decide)
  have hMOUSE_BUTTON_DOWN : ¬ t = EventType.MOUSE_BUTTON_DOWN := fun he => hmem (by rw [he]; decide)
  have hMOUSE_BUTTON_UP : ¬ t = EventType.MOUSE_BUTTON_UP := fun he => hmem (by rw [he]; decide)
  have hMOUSE_WHEEL : ¬ t = EventType.MOUSE_WHEEL := fun he => hmem (by rw [he]; decide)
  have hMOUSE_ADDED : ¬ t = EventType.MOUSE_ADDED := fun he => hmem (by rw [he]; decide)
  have hMOUSE_REMOVED : ¬ t = EventType.MOUSE_REMOVED := fun he => hmem (by rw [he]; decide)
  have hJOYSTICK_AXIS_MOTION : ¬ t = EventType.JOYSTICK_AXIS_MOTION := fun he => hmem (by rw [he]; decide)
  have hJOYSTICK_BALL_MOTION : ¬ t = EventType.JOYSTICK_BALL_MOTION := fun he => hmem (by rw [he]; decide)
  have hJOYSTICK_HAT_MOTION : ¬ t = EventType.JOYSTICK_HAT_MOTION := fun he => hmem (by rw [he]; decide)
  have hJOYSTICK_BUTTON_DOWN : ¬ t = EventType.JOYSTICK_BUTTON_DOWN := fun he => hmem (by rw [he]; decide)
  have hJOYSTICK_BUTTON_UP : ¬ t = EventType.JOYSTICK_BUTTON_UP := fun he => hmem (by rw [he]; decide)
  have hJOYSTICK_ADDED : ¬ t = EventType.JOYSTICK_ADDED := fun he => hmem (by rw [he]; decide)
  have hJOYSTICK_REMOVED : ¬ t = EventType.JOYSTICK_REMOVED := fun he => hmem (by rw [he]; decide)
  have hJOYSTICK_BATTERY_UPDATED : ¬ t = EventType.JOYSTICK_BATTERY_UPDATED := fun he => hmem (by rw [he]; decide)
  have hJOYSTICK_UPDATE_COMPLETE : ¬ t = EventType.JOYSTICK_UPDATE_COMPLETE := fun he => hmem (by rw [he]; decide)
  have hGAMEPAD_AXIS_MOTION : ¬ t = EventType.GAMEPAD_AXIS_MOTION := fun he => hmem (by rw [he]; decide)
  have hGAMEPAD_BUTTON_DOWN : ¬ t = EventType.GAMEPAD_BUTTON_DOWN := fun he => hmem (by rw [he]; decide)
  have hGAMEPAD_BUTTON_UP : ¬ t = EventType.GAMEPAD_BUTTON_UP := fun he => hmem (by rw [he]; decide)
  have hGAMEPAD_ADDED : ¬ t = EventType.GAMEPAD_ADDED := fun he => hmem (by rw [he]; decide)
  have hGAMEPAD_REMOVED : ¬ t = EventType.GAMEPAD_REMOVED := fun he => hmem (by rw [he]; decide)
  have hGAMEPAD_REMAPPED : ¬ t = EventType.GAMEPAD_REMAPPED := fun he => hmem (by rw [he]; decide)
  have hGAMEPAD_TOUCHPAD_DOWN : ¬ t = EventType.GAMEPAD_TOUCHPAD_DOWN := fun he => hmem (by rw [he]; decide)
  have hGAMEPAD_TOUCHPAD_MOTION : ¬ t = EventType.GAMEPAD_TOUCHPAD_MOTION := fun he => hmem (by rw [he]; decide)
  have hGAMEPAD_TOUCHPAD_UP : ¬ t = EventType.GAMEPAD_TOUCHPAD_UP := fun he => hmem (by rw [he]; decide)
  have hGAMEPAD_SENSOR_UPDATE : ¬ t = EventType.GAMEPAD_SENSOR_UPDATE := fun he => hmem (by rw [he]; decide)
  have hGAMEPAD_UPDATE_COMPLETE : ¬ t = EventType.GAMEPAD_UPDATE_COMPLETE := fun he => hmem (by rw [he]; decide)
  have hGAMEPAD_STEAM_HANDLE_UPDATED : ¬ t = EventType.GAMEPAD_STEAM_HANDLE_UPDATED := fun he => hmem (by rw [he]; decide)
  have hFINGER_DOWN : ¬ t = EventType.FINGER_DOWN := fun he => hmem (by rw [he]; decide)
  have hFINGER_UP : ¬ t = EventType.FINGER_UP := fun he => hmem (by rw [he]; decide)
  have hFINGER_MOTION : ¬ t = EventType.FINGER_MOTION := fun he => hmem (by rw [he]; decide)
  have hFINGER_CANCELED : ¬ t = EventType.FINGER_CANCELED := fun he => hmem (by rw [he]; decide)
  have hPINCH_BEGIN : ¬ t = EventType.PINCH_BEGIN := fun he => hmem (by rw [he]; decide)
  have hPINCH_UPDATE : ¬ t = EventType.PINCH_UPDATE := fun he => hmem (by rw [he]; decide)
  have hPINCH_END : ¬ t = EventType.PINCH_END := fun he => hmem (by rw [he]; decide)
  have hCLIPBOARD_UPDATE : ¬ t = EventType.CLIPBOARD_UPDATE := fun he => hmem (by rw [he]; decide)
  have hDROP_FILE : ¬ t = EventType.DROP_FILE := fun he => hmem (by rw [he]; decide)
  have hDROP_TEXT : ¬ t = EventType.DROP_TEXT := fun he => hmem (by rw [he]; decide)
  have hDROP_BEGIN : ¬ t = EventType.DROP_BEGIN := fun he => hmem (by rw [he]; decide)
  have hDROP_COMPLETE : ¬ t = EventType.DROP_COMPLETE := fun he => hmem (by rw [he]; decide)
  have hDROP_POSITION : ¬ t = EventType.DROP_POSITION := fun he => hmem (by rw [he]; decide)
  have hAUDIO_DEVICE_ADDED : ¬ t = EventType.AUDIO_DEVICE_ADDED := fun he => hmem (by rw [he]; decide)
  have hAUDIO_DEVICE_REMOVED : ¬ t = EventType.AUDIO_DEVICE_REMOVED := fun he => hmem (by rw [he]; decide)
  have hAUDIO_DEVICE_FORMAT_CHANGED : ¬ t = EventType.AUDIO_DEVICE_FORMAT_CHANGED := fun he => hmem (by rw [he]; decide)
  have hSENSOR_UPDATE : ¬ t = EventType.SENSOR_UPDATE := fun he => hmem (by rw [he]; decide)
  have hPEN_PROXIMITY_IN : ¬ t = EventType.PEN_PROXIMITY_IN := fun he => hmem (by rw [he]; decide)
  have hPEN_PROXIMITY_OUT : ¬ t = EventType.PEN_PROXIMITY_OUT := fun he => hmem (by rw [he]; decide)
  have hPEN_DOWN : ¬ t = EventType.PEN_DOWN := fun he => hmem (by rw [he]; decide)
  have hPEN_UP : ¬ t = EventType.PEN_UP := fun he => hmem (by rw [he]; decide)
  have hPEN_BUTTON_DOWN : ¬ t = EventType.PEN_BUTTON_DOWN := fun he => hmem (by rw [he]; decide)
  have hPEN_BUTTON_UP : ¬ t = EventType.PEN_BUTTON_UP := fun he => hmem (by rw [he]; decide)
  have hPEN_MOTION : ¬ t = EventType.PEN_MOTION := fun he => hmem (by rw [he]; decide)
  have hPEN_AXIS : ¬ t = EventType.PEN_AXIS := fun he => hmem (by rw [he]; decide)
  have hCAMERA_DEVICE_ADDED : ¬ t = EventType.CAMERA_DEVICE_ADDED := fun he => hmem (by rw [he]; decide)
  have hCAMERA_DEVICE_REMOVED : ¬ t = EventType.CAMERA_DEVICE_REMOVED := fun he => hmem (by rw [he]; decide)
  have hCAMERA_DEVICE_APPROVED : ¬ t = EventType.CAMERA_DEVICE_APPROVED := fun he => hmem (by rw [he]; decide)
  have hCAMERA_DEVICE_DENIED : ¬ t = EventType.CAMERA_DEVICE_DENIED := fun he => hmem (by rw [he]; decide)
  have hRENDER_TARGETS_RESET : ¬ t = EventType.RENDER_TARGETS_RESET := fun he => hmem (by rw [he]; decide)
  have hRENDER_DEVICE_RESET : ¬ t = EventType.RENDER_DEVICE_RESET := fun he => hmem (by rw [he]; decide)
  have hRENDER_DEVICE_LOST : ¬ t = EventType.RENDER_DEVICE_LOST := fun he => hmem (by rw [he]; decide)
  have hUSER : ¬ t = EventType.USER := fun he => hmem (by rw [he]; decide)
  unfold toObject
  rw [if_neg hQUIT, if_neg hDISPLAY_ORIENTATION, if_neg hDISPLAY_ADDED, if_neg hDISPLAY_REMOVED, if_neg hDISPLAY_MOVED, if_neg hDISPLAY_DESKTOP_MODE_CHANGED, if_neg hDISPLAY_CURRENT_MODE_CHANGED, if_neg hDISPLAY_CONTENT_SCALE_CHANGED, if_neg hDISPLAY_USABLE_BOUNDS_CHANGED, if_neg hWINDOW_SHOWN, if_neg hWINDOW_HIDDEN, if_neg hWINDOW_EXPOSED, if_neg hWINDOW_MOVED, if_neg hWINDOW_RESIZED, if_neg hWINDOW_PIXEL_SIZE_CHANGED, if_neg hWINDOW_METAL_VIEW_RESIZED, if_neg hWINDOW_MINIMIZED, if_neg hWINDOW_MAXIMIZED, if_neg hWINDOW_RESTORED, if_neg hWINDOW_MOUSE_ENTER, if_neg hWINDOW_MOUSE_LEAVE, if_neg hWINDOW_FOCUS_GAINED, if_neg hWINDOW_FOCUS_LOST, if_neg hWINDOW_CLOSE_REQUESTED, if_neg hWINDOW_HIT_TEST, if_neg hWINDOW_ICCPROF_CHANGED, if_neg hWINDOW_DISPLAY_CHANGED, if_neg hWINDOW_DISPLAY_SCALE_CHANGED, if_neg hWINDOW_SAFE_AREA_CHANGED, if_neg hWINDOW_OCCLUDED, if_neg hWINDOW_ENTER_FULLSCREEN, if_neg hWINDOW_LEAVE_FULLSCREEN, if_neg hWINDOW_DESTROYED, if_neg hWINDOW_HDR_STATE_CHANGED, if_neg hKEY_DOWN, if_neg hKEY_UP, if_neg hTEXT_EDITING, if_neg hTEXT_INPUT, if_neg hKEYBOARD_ADDED, if_neg hKEYBOARD_REMOVED, if_neg hTEXT_EDITING_CANDIDATES, if_neg hMOUSE_MOTION, if_neg hMOUSE_BUTTON_DOWN, if_neg hMOUSE_BUTTON_UP, if_neg hMOUSE_WHEEL, if_neg hMOUSE_ADDED, if_neg hMOUSE_REMOVED, if_neg hJOYSTICK_AXIS_MOTION, if_neg hJOYSTICK_BALL_MOTION, if_neg hJOYSTICK_HAT_MOTION, if_neg hJOYSTICK_BUTTON_DOWN, if_neg hJOYSTICK_BUTTON_UP, if_neg hJOYSTICK_ADDED, if_neg hJOYSTICK_REMOVED, if_neg hJOYSTICK_BATTERY_UPDATED, if_neg hJOYSTICK_UPDATE_COMPLETE, if_neg hGAMEPAD_AXIS_MOTION, if_neg hGAMEPAD_BUTTON_DOWN, if_neg hGAMEPAD_BUTTON_UP, if_neg hGAMEPAD_ADDED, if_neg hGAMEPAD_REMOVED, if_neg hGAMEPAD_REMAPPED, if_neg hGAMEPAD_TOUCHPAD_DOWN, if_neg hGAMEPAD_TOUCHPAD_MOTION, if_neg hGAMEPAD_TOUCHPAD_UP, if_neg hGAMEPAD_SENSOR_UPDATE, if_neg hGAMEPAD_UPDATE_COMPLETE, if_neg hGAMEPAD_STEAM_HANDLE_UPDATED, if_neg hFINGER_DOWN, if_neg hFINGER_UP, if_neg hFINGER_MOTION, if_neg hFINGER_CANCELED, if_neg hPINCH_BEGIN, if_neg hPINCH_UPDATE, if_neg hPINCH_END, if_neg hCLIPBOARD_UPDATE, if_neg hDROP_FILE, if_neg hDROP_TEXT, if_neg hDROP_BEGIN, if_neg hDROP_COMPLETE, if_neg hDROP_POSITION, if_neg hAUDIO_DEVICE_ADDED, if_neg hAUDIO_DEVICE_REMOVED, if_neg hAUDIO_DEVICE_FORMAT_CHANGED, if_neg hSENSOR_UPDATE, if_neg hPEN_PROXIMITY_IN, if_neg hPEN_PROXIMITY_OUT, if_neg hPEN_DOWN, if_neg hPEN_UP, if_neg hPEN_BUTTON_DOWN, if_neg hPEN_BUTTON_UP, if_neg hPEN_MOTION, if_neg hPEN_AXIS, if_neg hCAMERA_DEVICE_ADDED, if_neg hCAMERA_DEVICE_REMOVED, if_neg hCAMERA_DEVICE_APPROVED, if_neg hCAMERA_DEVICE_DENIED, if_neg hRENDER_TARGETS_RESET, if_neg hRENDER_DEVICE_RESET, if_neg hRENDER_DEVICE_LOST, if_neg hUSER, if_neg hrange]

/-- C1: for every unsigned 32-bit value of the event record `type` tag,
`toObject` returns without throwing: for each tag the dispatch table
enumerates it returns the associated typed projection, and for any tag
outside every known range (not an enumerated case and not in the
reserved user range) it returns the generic common-header projection. -/
theorem c1_toObject_total :
    (∀ p ∈ dispatchTable, toObject p.1 = p.2) ∧
    (∀ t : Nat, t < 2 ^ 32 → t ∉ dispatchTable.map Prod.fst →
      ¬(EventType.USER ≤ t ∧ t ≤ EventType.LAST) →
      toObject t = Projection.common) := by
  constructor
  · decide
  · intro t _ hmem hrange
    exact toObject_unknown_tag t hmem hrange

/-- Witness for C1 at the concrete tags 0x100 (enumerated) and 0x33333
(outside every known range). -/
theorem c1_toObject_total_witness :
    toObject 0x100 = Projection.quit ∧ toObject 0x33333 = Projection.common :=
  ⟨c1_toObject_total.1 (0x100, Projection.quit) (by decide),
   c1_toObject_total.2 0x33333 (by decide) (by decide) (by decide)⟩

/-- C2: every tag in the reserved user range `USER..LAST` that is not an
individually enumerated case resolves to the `user` payload projection,
not the common-header projection. -/
theorem c2_user_range_dispatch :
    ∀ t : Nat, EventType.USER ≤ t → t ≤ EventType.LAST →
      t ∉ dispatchTable.map Prod.fst → toObject t = Projection.user := by
  intro t hu hl _
  exact toObject_user_range t hu hl

/-- Witness for C2 at the concrete non-enumerated user-range tag 0x8001. -/
theorem c2_user_range_dispatch_witness : toObject 0x8001 = Projection.user :=
  c2_user_range_dispatch 0x8001 (by decide) (by decide) (by decide)
/-- Helper: a drain that did not hit a quit yielded no `QUIT` tag. -/
theorem drainTick_no_quit : ∀ q : List Nat,
    (drainTick q).2 = false → EventType.QUIT ∉ (drainTick q).1 := by
  intro q
  induction q with
  | nil => intro _; simp [drainTick]
  | cons t rest ih =>
    intro h
    by_cases ht : t = EventType.QUIT
    · simp [drainTick, ht] at h
    · simp only [drainTick, if_neg ht] at h ⊢
      simp only [List.mem_cons, not_or]
      exact ⟨fun he => ht he.symm, ih h⟩

/-- Helper: any single drain yields a `QUIT` tag only as its final
element. -/
theorem drainTick_ok : ∀ q : List Nat,
    noQuitExceptLast (drainTick q).1 = true := by
  intro q
  induction q with
  | nil => simp [drainTick, noQuitExceptLast]
  | cons t rest ih =>
    by_cases ht : t = EventType.QUIT
    · simp [drainTick, ht, noQuitExceptLast]
    · simp only [drainTick, if_neg ht]
      simp only [noQuitExceptLast, if_neg ht]
      exact ih

/-- Helper: prepending a quit-free block preserves the
quit-only-last property. -/
theorem noQuitExceptLast_append : ∀ l m : List Nat,
    EventType.QUIT ∉ l → noQuitExceptLast m = true →
    noQuitExceptLast (l ++ m) = true := by
  intro l m
  induction l with
  | nil => intro _ hm; simpa using hm
  | cons t rest ih =>
    intro hl hm
    simp only [List.mem_cons, not_or] at hl
    have hne : ¬ t = EventType.QUIT := fun he => hl.1 he.symm
    simp only [List.cons_append, noQuitExceptLast, if_neg hne]
    exact ih hl.2 hm

/-- Helper: the whole yield sequence of `iter` has a `QUIT` tag only as
its final element. -/
theorem iterYields_ok : ∀ ticks : List (List Nat),
    noQuitExceptLast (iterYields ticks) = true := by
  intro ticks
  induction ticks with
  | nil => simp [iterYields, noQuitExceptLast]
  | cons q qs ih =>
    simp only [iterYields]
    by_cases hq : (drainTick q).2 = true
    · simpa [hq] using drainTick_ok q
    · rw [Bool.not_eq_true] at hq
      simp only [hq, if_neg Bool.false_ne_true]
      exact noQuitExceptLast_append _ _ (drainTick_no_quit q hq) ih

/-- Helper: the quit-only-last boolean check implies the splitting form
of the property. -/
theorem noQuitExceptLast_spec : ∀ l₁ l l₂ : List Nat,
    noQuitExceptLast l = true → l = l₁ ++ EventType.QUIT :: l₂ → l₂ = [] := by
  intro l₁
  induction l₁ with
  | nil =>
    intro l l₂ h he
    subst he
    simpa [noQuitExceptLast] using h
  | cons a l₁ ih =>
    intro l l₂ h he
    subst he
    simp only [List.cons_append, noQuitExceptLast] at h
    split at h
    · simp at h
    · exact ih _ _ h rfl
/-- C3: once `iter` yields an event whose type equals `EventType.QUIT`,
the generator terminates in that same tick and never yields any further
event: in every yield sequence a `QUIT` tag is the final element, and
after a tick whose drain hit a quit the remaining ticks contribute
nothing. -/
theorem c3_iter_quit_terminal :
    (∀ (ticks : List (List Nat)) (l₁ l₂ : List Nat),
      iterYields ticks = l₁ ++ EventType.QUIT :: l₂ → l₂ = []) ∧
    (∀ (q : List Nat) (qs qs' : List (List Nat)), (drainTick q).2 = true →
      iterYields (q :: qs) = iterYields (q :: qs')) := by
  constructor
  · intro ticks l₁ l₂ h
    exact noQuitExceptLast_spec l₁ _ l₂ (iterYields_ok ticks) h
  · intro q qs qs' h
    simp [iterYields, h]

/-- Witness for C3: a concrete run where the quit arrives mid-tick with
events queued behind it and a later tick pending. -/
theorem c3_iter_quit_terminal_witness :
    ([] : List Nat) = [] ∧
    iterYields [[EventType.QUIT], [1]] = iterYields [[EventType.QUIT], [2, 3]] :=
  ⟨c3_iter_quit_terminal.1 [[5, EventType.QUIT, 7], [9]] [5] [] (by decide),
   c3_iter_quit_terminal.2 [EventType.QUIT] [[1]] [[2, 3]] (by decide)⟩

/-- C7: `pushQuit e` writes the full quit record obtained by merging the
fields of `e` over the defaults `type = EventType.QUIT`,
`timestamp = 0`, `reserved = 0` into the backing buffer, and then calls
`push()` exactly once (the queue grows by exactly that record). -/
theorem c7_pushQuit_merge_then_push :
    ∀ (s : EventState) (e : QuitPatch),
      Event.pushQuit s e =
        ⟨mergeQuit e, s.type, s.queue ++ [mergeQuit e]⟩ ∧
      mergeQuit e =
        ⟨e.type.getD EventType.QUIT, e.reserved.getD 0, e.timestamp.getD 0⟩ := by
  intro s e
  exact ⟨rfl, rfl⟩

/-- C8: `poll()` on an empty native queue returns `false` without
throwing or signaling an error; when an event is available it returns
`true`, the backing buffer holds the dequeued record, and the record is
removed from the native queue. -/
theorem c8_poll_empty_false_nonempty_loads :
    ∀ s : EventState,
      (s.queue = [] → Event.poll s = (s, false)) ∧
      (∀ e rest, s.queue = e :: rest →
        (Event.poll s).2 = true ∧ (Event.poll s).1.buf = e ∧
        (Event.poll s).1.queue = rest) := by
  intro s
  constructor
  · intro h
    simp [Event.poll, h]
  · intro e rest h
    simp [Event.poll, h, Event.readType_]

/-- Witness for C8 at an empty queue and at a one-element queue. -/
theorem c8_poll_witness :
    Event.poll ⟨⟨0, 0, 0⟩, 9, []⟩ = (⟨⟨0, 0, 0⟩, 9, []⟩, false) ∧
    ((Event.poll ⟨⟨0, 0, 0⟩, 9, [⟨7, 1, 2⟩]⟩).2 = true ∧
      (Event.poll ⟨⟨0, 0, 0⟩, 9, [⟨7, 1, 2⟩]⟩).1.buf = ⟨7, 1, 2⟩ ∧
      (Event.poll ⟨⟨0, 0, 0⟩, 9, [⟨7, 1, 2⟩]⟩).1.queue = []) :=
  ⟨(c8_poll_empty_false_nonempty_loads _).1 rfl,
   (c8_poll_empty_false_nonempty_loads _).2 ⟨7, 1, 2⟩ [] rfl⟩

/-- C9: whenever `poll()`, `wait()` or `waitTimeout(ms)` returns
`false`, the cached `type` field is unchanged, because `readType_`
re-reads the tag only on a successful native return. -/
theorem c9_false_return_preserves_type :
    ∀ (s : EventState) (ms : Nat) (outcome : Option CommonEvent),
      ((Event.poll s).2 = false → (Event.poll s).1.type = s.type) ∧
      ((Event.wait s outcome).2 = false →
        (Event.wait s outcome).1.type = s.type) ∧
      ((Event.waitTimeout s ms outcome).2 = false →
        (Event.waitTimeout s ms outcome).1.type = s.type) := by
  intro s ms outcome
  refine ⟨?_, ?_, ?_⟩
  · cases hq : s.queue with
    | nil => intro _; simp [Event.poll, hq]
    | cons e rest => intro h; simp [Event.poll, hq] at h
  · cases outcome with
    | none => intro _; simp [Event.wait]
    | some e => intro h; simp [Event.wait] at h
  · cases outcome with
    | none => intro _; simp [Event.waitTimeout]
    | some e => intro h; simp [Event.waitTimeout] at h

/-- Witness for C9: the three false-returning calls at concrete
states leave the cached tag 9 in place. -/
theorem c9_false_return_witness :
    (Event.poll ⟨⟨0, 0, 0⟩, 9, []⟩).1.type = 9 ∧
    (Event.wait ⟨⟨0, 0, 0⟩, 9, []⟩ none).1.type = 9 ∧
    (Event.waitTimeout ⟨⟨0, 0, 0⟩, 9, []⟩ 16 none).1.type = 9 :=
  ⟨(c9_false_return_preserves_type ⟨⟨0, 0, 0⟩, 9, []⟩ 16 none).1 (by decide),
   (c9_false_return_preserves_type ⟨⟨0, 0, 0⟩, 9, []⟩ 16 none).2.1 (by decide),
   (c9_false_return_preserves_type ⟨⟨0, 0, 0⟩, 9, []⟩ 16 none).2.2 (by decide)⟩

/-- C4: on a batch whose fill cursor equals its capacity, `push()` and
the variant pushes that write through the batch throw, leave the cursor
at capacity, and leave every stored record untouched. -/
theorem c4_push_at_capacity_throws :
    ∀ (s : ArrState) (e : QuitPatch), s.numEvents = s.maxEvents →
      s.push = .error ⟨"PeepEvents buffer full", s⟩ ∧
      s.pushQuit e = .error ⟨"PeepEvents buffer full", s⟩ ∧
      (outState s.push).numEvents = s.maxEvents ∧
      (outState s.push).buf = s.buf ∧
      (outState (s.pushQuit e)).numEvents = s.maxEvents ∧
      (outState (s.pushQuit e)).buf = s.buf := by
  intro s e h
  have hge : s.numEvents ≥ s.maxEvents := le_of_eq h.symm
  have hp : s.push = .error ⟨"PeepEvents buffer full", s⟩ := by
    simp only [ArrState.push, if_pos hge]
  have hq : s.pushQuit e = .error ⟨"PeepEvents buffer full", s⟩ := by
    simp only [ArrState.pushQuit, ArrState.dtIndex, if_pos hge]
  refine ⟨hp, hq, ?_, ?_, ?_, ?_⟩ <;> simp [hp, hq, outState, h]

/-- Witness for C4 on a full one-slot batch. -/
theorem c4_push_at_capacity_witness :
    (⟨1, 1, [⟨0, 0, 0⟩]⟩ : ArrState).push =
      .error ⟨"PeepEvents buffer full", ⟨1, 1, [⟨0, 0, 0⟩]⟩⟩ ∧
    (⟨1, 1, [⟨0, 0, 0⟩]⟩ : ArrState).pushQuit ⟨none, none, none⟩ =
      .error ⟨"PeepEvents buffer full", ⟨1, 1, [⟨0, 0, 0⟩]⟩⟩ :=
  ⟨(c4_push_at_capacity_throws _ ⟨none, none, none⟩ rfl).1,
   (c4_push_at_capacity_throws _ ⟨none, none, none⟩ rfl).2.1⟩

/-- C5: `get(i, fn)` restores the fill cursor to its prior value
whether `fn` returns normally or throws, and `fold(fn)` restores it
after iterating, for every callback. -/
theorem c5_get_fold_restore_cursor :
    ∀ s : ArrState,
      (∀ (index : Nat) (f : ArrState → Except Thrown ArrState),
        index < s.numEvents →
        (outState (s.get index f)).numEvents = s.numEvents) ∧
      (∀ f : ArrState → Nat → Except Thrown (ArrState × Bool),
        (outState (s.fold f)).numEvents = s.numEvents) := by
  intro s
  constructor
  · intro index f hix
    have hn : ¬ index ≥ s.numEvents := not_le.mpr hix
    unfold ArrState.get
    rw [if_neg hn]
    rcases hf : f ⟨s.maxEvents, index, s.buf⟩ with err | r <;>
      simp [outState]
  · intro f
    unfold ArrState.fold
    rcases hf : foldLoop f s.numEvents 0 s with err | r <;>
      simp [outState]

/-- Witness for C5: a cursor-mangling callback under `get` and a
throwing callback under `fold`, both restored to cursor 1. -/
theorem c5_restore_witness :
    (outState ((⟨2, 1, [⟨0, 0, 0⟩, ⟨0, 0, 0⟩]⟩ : ArrState).get 0
      (fun st => .ok ⟨st.maxEvents, 99, st.buf⟩))).numEvents = 1 ∧
    (outState ((⟨2, 1, [⟨0, 0, 0⟩, ⟨0, 0, 0⟩]⟩ : ArrState).fold
      (fun st _ => .error ⟨"boom", st⟩))).numEvents = 1 :=
  ⟨(c5_get_fold_restore_cursor _).1 0 _ (by decide),
   (c5_get_fold_restore_cursor _).2 _⟩

/-- C10: `get(i, fn)` with `i` at or beyond the fill cursor throws the
out-of-range error with the state unchanged, and never invokes `fn`
(the result does not depend on the callback at all). -/
theorem c10_get_out_of_range :
    ∀ (s : ArrState) (index : Nat)
      (f g : ArrState → Except Thrown ArrState),
      s.numEvents ≤ index →
      s.get index f = .error ⟨"PeepEvents index out of range", s⟩ ∧
      s.get index f = s.get index g := by
  intro s index f g h
  have hge : index ≥ s.numEvents := h
  refine ⟨?_, ?_⟩
  · unfold ArrState.get
    rw [if_pos hge]
  · unfold ArrState.get
    rw [if_pos hge, if_pos hge]

/-- Witness for C10 on an empty batch, with a normal and a throwing
callback. -/
theorem c10_get_out_of_range_witness :
    (⟨1, 0, [⟨0, 0, 0⟩]⟩ : ArrState).get 0 (fun st => .ok st) =
      .error ⟨"PeepEvents index out of range", ⟨1, 0, [⟨0, 0, 0⟩]⟩⟩ ∧
    (⟨1, 0, [⟨0, 0, 0⟩]⟩ : ArrState).get 0 (fun st => .ok st) =
      (⟨1, 0, [⟨0, 0, 0⟩]⟩ : ArrState).get 0
        (fun st => .error ⟨"boom", st⟩) :=
  c10_get_out_of_range _ 0 _ _ (by decide)
/-- Helper: the two outcomes of `EventArray.push`. -/
theorem push_cases (s : ArrState) :
    (s.maxEvents ≤ s.numEvents ∧
      s.push = .error ⟨"PeepEvents buffer full", s⟩) ∨
    (s.numEvents < s.maxEvents ∧
      s.push = .ok ⟨s.maxEvents, s.numEvents + 1, s.buf⟩) := by
  by_cases hf : s.numEvents ≥ s.maxEvents
  · exact .inl ⟨hf, by simp only [ArrState.push, if_pos hf]⟩
  · exact .inr ⟨not_le.mp hf, by simp only [ArrState.push, if_neg hf]⟩

/-- Helper: the two outcomes of `EventArray.dt` (modelled as the slot
index it designates). -/
theorem dtIndex_cases (s : ArrState) :
    (s.maxEvents ≤ s.numEvents ∧
      s.dtIndex = .error ⟨"PeepEvents buffer full", s⟩) ∨
    (s.numEvents < s.maxEvents ∧ s.dtIndex = .ok s.numEvents) := by
  by_cases hf : s.numEvents ≥ s.maxEvents
  · exact .inl ⟨hf, by simp only [ArrState.dtIndex, if_pos hf]⟩
  · exact .inr ⟨not_le.mp hf, by simp only [ArrState.dtIndex, if_neg hf]⟩

/-- Helper: the two outcomes of a variant push on an `EventArray`. -/
theorem pushQuit_cases (s : ArrState) (e : QuitPatch) :
    (s.maxEvents ≤ s.numEvents ∧
      s.pushQuit e = .error ⟨"PeepEvents buffer full", s⟩) ∨
    (s.numEvents < s.maxEvents ∧
      s.pushQuit e =
        .ok ⟨s.maxEvents, s.numEvents + 1,
          s.buf.set s.numEvents (mergeQuit e)⟩) := by
  by_cases hf : s.numEvents ≥ s.maxEvents
  · exact .inl ⟨hf, by
      simp only [ArrState.pushQuit, ArrState.dtIndex, if_pos hf]⟩
  · refine .inr ⟨not_le.mp hf, ?_⟩
    simp only [ArrState.pushQuit, ArrState.dtIndex, if_neg hf,
      ArrState.push]

/-- Helper: the fold loop of the operation language coincides with the
real `foldLoop` run on the callback the inner program denotes (fuel
form). -/
theorem runFold_eq_foldLoop_aux (b : Bool) (inner : Prog) :
    ∀ d n i : Nat, n - i ≤ d → ∀ s : ArrState,
      runFold b inner n i s = foldLoop (foldCallback b inner) n i s := by
  intro d
  induction d with
  | zero =>
    intro n i hd s
    have hin : ¬ i < n := by omega
    unfold runFold foldLoop
    simp only [if_neg hin]
  | succ d ihd =>
    intro n i hd s
    unfold runFold foldLoop
    by_cases hin : i < n
    · simp only [if_pos hin, foldCallback]
      rcases hr : run inner ⟨s.maxEvents, i, s.buf⟩ with err | r
      · rfl
      · cases b
        · rfl
        · show runFold true inner n (i + 1) r =
            foldLoop (foldCallback true inner) n (i + 1) r
          exact ihd n (i + 1) (by omega) r
    · simp only [if_neg hin]

/-- Helper: the fold loop of the operation language coincides with the
real `foldLoop`. -/
theorem runFold_eq_foldLoop (b : Bool) (inner : Prog) (n i : Nat)
    (s : ArrState) :
    runFold b inner n i s = foldLoop (foldCallback b inner) n i s :=
  runFold_eq_foldLoop_aux b inner (n - i) n i le_rfl s

/-- Helper: the `getP` case of `run` is exactly `EventArray.get` with
the inner program as callback, followed by the continuation. -/
theorem run_getP (index : Nat) (inner k : Prog) (s : ArrState) :
    run (.getP index inner k) s =
      match ArrState.get s index (run inner) with
      | .ok r => run k r
      | .error err => .error err := by
  simp only [run]
  unfold ArrState.get
  by_cases hge : index ≥ s.numEvents
  · simp only [if_pos hge]
  · simp only [if_neg hge]
    rcases hr : run inner ⟨s.maxEvents, index, s.buf⟩ with err | r <;> rfl

/-- Helper: the `foldP` case of `run` is exactly `EventArray.fold` with
the callback the inner program denotes, followed by the
continuation. -/
theorem run_foldP (b : Bool) (inner k : Prog) (s : ArrState) :
    run (.foldP b inner k) s =
      match ArrState.fold s (foldCallback b inner) with
      | .ok r => run k r
      | .error err => .error err := by
  simp only [run]
  unfold ArrState.fold
  rw [← runFold_eq_foldLoop]
  rcases hr : runFold b inner s.numEvents 0 s with err | r <;> rfl

/-- Helper: the fold loop preserves capacity, buffer size and the
cursor bound, given that the inner program does (fuel form). -/
theorem runFold_pres (b : Bool) (inner : Prog)
    (CIH : ∀ st : ArrState, ArrInv st → ArrPres st (outState (run inner st))) :
    ∀ d n i : Nat, n - i ≤ d → ∀ s : ArrState, ArrInv s →
      n ≤ s.maxEvents → ArrPres s (outState (runFold b inner n i s)) := by
  intro d
  induction d with
  | zero =>
    intro n i hd s hs hn
    have hin : ¬ i < n := by omega
    unfold runFold
    rw [if_neg hin]
    exact ⟨rfl, rfl, hs.1⟩
  | succ d ihd =>
    intro n i hd s hs hn
    unfold runFold
    by_cases hin : i < n
    · rw [if_pos hin]
      have hinv1 : ArrInv ⟨s.maxEvents, i, s.buf⟩ :=
        ⟨le_of_lt (lt_of_lt_of_le hin hn), hs.2⟩
      have h1 := CIH ⟨s.maxEvents, i, s.buf⟩ hinv1
      rcases hr : run inner ⟨s.maxEvents, i, s.buf⟩ with err | r
      · rw [hr] at h1
        exact h1
      · rw [hr] at h1
        have h1' : ArrPres s r := h1
        cases b
        · exact h1'
        · have hinvr : ArrInv r := ⟨h1'.2.2, by rw [h1'.2.1, hs.2, h1'.1]⟩
          have hnr : n ≤ r.maxEvents := le_trans hn (le_of_eq h1'.1.symm)
          have h2 := ihd n (i + 1) (by omega) r hinvr hnr
          show ArrPres s (outState (runFold true inner n (i + 1) r))
          exact ⟨h2.1.trans h1'.1, h2.2.1.trans h1'.2.1, h2.2.2⟩
    · rw [if_neg hin]
      exact ⟨rfl, rfl, hs.1⟩

/-- Helper: every client program preserves capacity, buffer size and
the cursor bound. -/
theorem run_pres : ∀ (p : Prog) (s : ArrState), ArrInv s →
    ArrPres s (outState (run p s)) := by
  intro p
  induction p with
  | nil =>
    intro s hs
    simp only [run, outState]
    exact ⟨rfl, rfl, hs.1⟩
  | pushP k ihk =>
    intro s hs
    simp only [run]
    rcases push_cases s with ⟨hf, hp⟩ | ⟨hlt, hp⟩
    · rw [hp]
      exact ⟨rfl, rfl, hs.1⟩
    · rw [hp]
      exact ihk ⟨s.maxEvents, s.numEvents + 1, s.buf⟩ ⟨hlt, hs.2⟩
  | pushQuitP e k ihk =>
    intro s hs
    simp only [run]
    rcases pushQuit_cases s e with ⟨hf, hp⟩ | ⟨hlt, hp⟩
    · rw [hp]
      exact ⟨rfl, rfl, hs.1⟩
    · rw [hp]
      have hinvr : ArrInv ⟨s.maxEvents, s.numEvents + 1,
          s.buf.set s.numEvents (mergeQuit e)⟩ :=
        ⟨hlt, by simpa using hs.2⟩
      have h1 := ihk _ hinvr
      exact ⟨h1.1, h1.2.1.trans (by simp), h1.2.2⟩
  | dtP k ihk =>
    intro s hs
    simp only [run]
    rcases dtIndex_cases s with ⟨hf, hd⟩ | ⟨hlt, hd⟩
    · rw [hd]
      exact ⟨rfl, rfl, hs.1⟩
    · rw [hd]
      exact ihk s hs
  | getP index inner k ihinner ihk =>
    intro s hs
    simp only [run]
    by_cases hge : index ≥ s.numEvents
    · rw [if_pos hge]
      exact ⟨rfl, rfl, hs.1⟩
    · rw [if_neg hge]
      have hidx : index < s.numEvents := lt_of_not_ge hge
      have hinv1 : ArrInv ⟨s.maxEvents, index, s.buf⟩ :=
        ⟨le_of_lt (lt_of_lt_of_le hidx hs.1), hs.2⟩
      have h1 := ihinner ⟨s.maxEvents, index, s.buf⟩ hinv1
      rcases hr : run inner ⟨s.maxEvents, index, s.buf⟩ with err | r
      · rw [hr] at h1
        have h1' : ArrPres s err.state := h1
        refine ⟨h1'.1, h1'.2.1, ?_⟩
        show s.numEvents ≤ err.state.maxEvents
        rw [h1'.1]
        exact hs.1
      · rw [hr] at h1
        have h1' : ArrPres s r := h1
        have hinvr : ArrInv ⟨r.maxEvents, s.numEvents, r.buf⟩ :=
          ⟨by show s.numEvents ≤ r.maxEvents; rw [h1'.1]; exact hs.1,
           by show r.buf.length = r.maxEvents; rw [h1'.2.1, hs.2, h1'.1]⟩
        have h2 := ihk ⟨r.maxEvents, s.numEvents, r.buf⟩ hinvr
        exact ⟨h2.1.trans h1'.1, h2.2.1.trans h1'.2.1, h2.2.2⟩
  | foldP b inner k ihinner ihk =>
    intro s hs
    simp only [run]
    have h1 := runFold_pres b inner ihinner s.numEvents s.numEvents 0
      le_rfl s hs hs.1
    rcases hr : runFold b inner s.numEvents 0 s with err | r
    · rw [hr] at h1
      have h1' : ArrPres s err.state := h1
      refine ⟨h1'.1, h1'.2.1, ?_⟩
      show s.numEvents ≤ err.state.maxEvents
      rw [h1'.1]
      exact hs.1
    · rw [hr] at h1
      have h1' : ArrPres s r := h1
      have hinvr : ArrInv ⟨r.maxEvents, s.numEvents, r.buf⟩ :=
        ⟨by show s.numEvents ≤ r.maxEvents; rw [h1'.1]; exact hs.1,
         by show r.buf.length = r.maxEvents; rw [h1'.2.1, hs.2, h1'.1]⟩
      have h2 := ihk ⟨r.maxEvents, s.numEvents, r.buf⟩ hinvr
      exact ⟨h2.1.trans h1'.1, h2.2.1.trans h1'.2.1, h2.2.2⟩

/-- C6: the constructor establishes `0 = numEvents ≤ maxEvents` with a
`maxEvents`-slot buffer, and every sequence of batch operations
(`push`, variant pushes, `get`, `fold`, reading `dt` — callbacks
included, as programs of the operation language) keeps the cursor
within capacity and never resizes the backing buffer, whether the
sequence completes or throws. -/
theorem c6_cursor_capacity_invariant :
    (∀ m : Nat, (mkEventArray m).numEvents = 0 ∧ ArrInv (mkEventArray m)) ∧
    (∀ (p : Prog) (s : ArrState), ArrInv s →
      ArrInv (outState (run p s)) ∧
      (outState (run p s)).maxEvents = s.maxEvents ∧
      (outState (run p s)).buf.length = s.buf.length) := by
  constructor
  · intro m
    exact ⟨rfl, Nat.zero_le m, by simp [mkEventArray]⟩
  · intro p s hs
    have h := run_pres p s hs
    exact ⟨⟨h.2.2, by rw [h.2.1, hs.2, h.1]⟩, h.1, h.2.1⟩

/-- Witness for C6: a fresh two-slot batch run through a push, an
indexed view with a `dt` read inside, and a fold. -/
theorem c6_cursor_capacity_witness :
    (mkEventArray 2).numEvents = 0 ∧
    ArrInv (outState (run
      (.pushP (.getP 0 (.dtP .nil) (.foldP true (.dtP .nil) .nil)))
      (mkEventArray 2))) :=
  ⟨(c6_cursor_capacity_invariant.1 2).1,
   (c6_cursor_capacity_invariant.2
     (.pushP (.getP 0 (.dtP .nil) (.foldP true (.dtP .nil) .nil)))
     (mkEventArray 2) (c6_cursor_capacity_invariant.1 2).2).1⟩
